import Mathlib

/-!
Verification development for the request-memoization layer of the
thoth-user-api gateway (file src/thoth/user_api/api_v1.py).

The development shallowly embeds the Python source as executable Lean
definitions:

* JSON-like parameter mappings become the inductive type `Value`;
  the fingerprint function `_compute_digest_params` is modelled as a
  canonical sorted-key serialization (mirroring json.dumps with
  sort_keys=True / default separators / ensure_ascii) followed by a
  concrete SHA-256 implementation over the serialized bytes, output as
  lowercase hex.
* The per-endpoint orchestrators (post_analyze, post_provenance_python,
  post_advise_python, post_buildlog_analyze, post_build) become pure
  functions threading an explicit `World` state (the cache stores and
  dispatch counters), a record `ExtSvc` of deterministic external
  collaborators (image-registry metadata, scheduler id generation,
  graph-database index listing, application-stack parsing, build-log
  storage), an explicit wall-clock `now` and TTL where the source reads
  them, and returning the (response body, HTTP status) pair together
  with the updated world and a trace of external calls (`Event`).
* The job-lifecycle helpers (_get_document, _get_job_log,
  _get_job_status) and listing (_do_listing) become pure functions of
  the relevant store/scheduler oracles; the deliberate ValueError raise
  on an unknown scheduler state is modelled as `Except.error`.

Python-to-Lean rendering conventions: dict values become `Value`;
None becomes `Value.null`; keyword arguments with None defaults become
`Option`; dict insertion order is kept in the association lists; the
truthiness tests of the source (`if build_detail.get(...)`,
`if name_prefix`, `if namespace`) are rendered by `truthy` and
`strTruthy`.
-/

/-- A JSON-like value, the shape of the request-parameter mappings the
gateway fingerprints, echoes and dispatches. -/
inductive Value where
  | null : Value
  | bool : Bool → Value
  | num : Int → Value
  | str : String → Value
  | arr : List Value → Value
  | obj : List (String × Value) → Value

/-- Lowercase hexadecimal digit for the low 4 bits of a natural. -/
def hexChar (n : Nat) : Char :=
  if n % 16 < 10 then Char.ofNat (48 + n % 16) else Char.ofNat (87 + n % 16)

/-- The sixteen lowercase hexadecimal digits. -/
def hexDigits : List Char := "0123456789abcdef".toList

theorem hexChar_mem (n : Nat) : hexChar n ∈ hexDigits := by
  unfold hexChar
  have h : n % 16 < 16 := Nat.mod_lt _ (by omega)
  set m := n % 16 with hm
  interval_cases m <;> decide

/-- Four lowercase hex digits of a 16-bit code unit, as json.dumps
writes a \u escape. -/
def hex4 (n : Nat) : String :=
  String.mk [hexChar (n / 4096), hexChar (n / 256), hexChar (n / 16), hexChar n]

/-- One character of a JSON string literal under json.dumps defaults
(ensure_ascii): printable ASCII other than quote and backslash is kept,
everything else is escaped. -/
def jsonEscapeChar (c : Char) : String :=
  if c.toNat = 34 then "\\\""
  else if c.toNat = 92 then "\\\\"
  else if c.toNat = 8 then "\\b"
  else if c.toNat = 9 then "\\t"
  else if c.toNat = 10 then "\\n"
  else if c.toNat = 12 then "\\f"
  else if c.toNat = 13 then "\\r"
  else if c.toNat < 32 ∨ 126 < c.toNat then
    if c.toNat < 65536 then "\\u" ++ hex4 c.toNat
    else "\\u" ++ hex4 (55296 + (c.toNat - 65536) / 1024) ++
         "\\u" ++ hex4 (56320 + (c.toNat - 65536) % 1024)
  else String.singleton c

/-- A JSON string literal as json.dumps writes it. -/
def jsonQuote (s : String) : String :=
  "\"" ++ String.join (s.toList.map jsonEscapeChar) ++ "\""

/-- Order on serialized object fields: by the raw key string, the order
json.dumps(sort_keys=True) sorts dict keys in. -/
def keyLE (a b : String × String) : Prop := a.1 ≤ b.1

instance : DecidableRel keyLE := fun a b => inferInstanceAs (Decidable (a.1 ≤ b.1))

instance : IsTotal (String × String) keyLE := ⟨fun a b => le_total a.1 b.1⟩

instance : IsTrans (String × String) keyLE := ⟨fun _ _ _ h1 h2 => le_trans h1 h2⟩

/-- Sort (key, serialized value) pairs by key, as sort_keys=True does.
A stable sort, like the one json.dumps delegates to. -/
def sortPairs (ps : List (String × String)) : List (String × String) :=
  ps.insertionSort keyLE

mutual

/-- Serialization of a value exactly as json.dumps(v, sort_keys=True)
renders it: default separators (a comma-space between items, a
colon-space after keys), recursively sorted keys, ensure_ascii string
escaping. -/
def serializeValue : Value → String
  | Value.null => "null"
  | Value.bool true => "true"
  | Value.bool false => "false"
  | Value.num n => toString n
  | Value.str s => jsonQuote s
  | Value.arr xs => "[" ++ String.intercalate ", " (serializeArr xs) ++ "]"
  | Value.obj fs =>
      "\x7b" ++
        String.intercalate ", "
          ((sortPairs (serializeFields fs)).map (fun p => jsonQuote p.1 ++ ": " ++ p.2)) ++
      "\x7d"

/-- Serialize every element of an array. -/
def serializeArr : List Value → List String
  | [] => []
  | x :: xs => serializeValue x :: serializeArr xs

/-- Serialize the value of every object field, keeping the raw key. -/
def serializeFields : List (String × Value) → List (String × String)
  | [] => []
  | (k, v) :: fs => (k, serializeValue v) :: serializeFields fs

end

/-- Bytes of the serialized form. The serializer escapes every
character outside printable ASCII, so the UTF-8 encoding the source
applies with .encode() is exactly the code points. -/
def strBytes (s : String) : List Nat := s.toList.map Char.toNat

/-- 2 to the 32, the word modulus of SHA-256. -/
def w32 : Nat := 4294967296

/-- Rotate a 32-bit word right by n bits, in div/mod arithmetic. -/
def rotr32 (n x : Nat) : Nat := (x / 2 ^ n + x % 2 ^ n * 2 ^ (32 - n)) % w32

/-- SHA-256 lowercase sigma 0. -/
def ssig0 (x : Nat) : Nat := rotr32 7 x ^^^ rotr32 18 x ^^^ x / 2 ^ 3

/-- SHA-256 lowercase sigma 1. -/
def ssig1 (x : Nat) : Nat := rotr32 17 x ^^^ rotr32 19 x ^^^ x / 2 ^ 10

/-- SHA-256 uppercase Sigma 0. -/
def bsig0 (x : Nat) : Nat := rotr32 2 x ^^^ rotr32 13 x ^^^ rotr32 22 x

/-- SHA-256 uppercase Sigma 1. -/
def bsig1 (x : Nat) : Nat := rotr32 6 x ^^^ rotr32 11 x ^^^ rotr32 25 x

/-- SHA-256 choice function. -/
def chf (x y z : Nat) : Nat := x &&& y ^^^ (4294967295 - x % w32) &&& z

/-- SHA-256 majority function. -/
def majf (x y z : Nat) : Nat := x &&& y ^^^ x &&& z ^^^ y &&& z

/-- The 64 SHA-256 round constants. -/
def K256 : List Nat :=
  [1116352408, 1899447441, 3049323471, 3921009573, 961987163, 1508970993,
   2453635748, 2870763221, 3624381080, 310598401, 607225278, 1426881987,
   1925078388, 2162078206, 2614888103, 3248222580, 3835390401, 4022224774,
   264347078, 604807628, 770255983, 1249150122, 1555081692, 1996064986,
   2554220882, 2821834349, 2952996808, 3210313671, 3336571891, 3584528711,
   113926993, 338241895, 666307205, 773529912, 1294757372, 1396182291,
   1695183700, 1986661051, 2177026350, 2456956037, 2730485921, 2820302411,
   3259730800, 3345764771, 3516065817, 3600352804, 4094571909, 275423344,
   430227734, 506948616, 659060556, 883997877, 958139571, 1322822218,
   1537002063, 1747873779, 1955562222, 2024104815, 2227730452, 2361852424,
   2428436474, 2756734187, 3204031479, 3329325298]

/-- The eight SHA-256 working variables. -/
structure H8 where
  a : Nat
  b : Nat
  c : Nat
  d : Nat
  e : Nat
  f : Nat
  g : Nat
  h : Nat

/-- SHA-256 initial hash value. -/
def initH : H8 :=
  { a := 1779033703, b := 3144134277, c := 1013904242, d := 2773480762,
    e := 1359893119, f := 2600822924, g := 528734635, h := 1541459225 }

/-- One SHA-256 compression round. -/
def compressStep (st : H8) (kw : Nat × Nat) : H8 :=
  let t1 := (st.h + bsig1 st.e + chf st.e st.f st.g + kw.1 + kw.2) % w32
  let t2 := (bsig0 st.a + majf st.a st.b st.c) % w32
  { a := (t1 + t2) % w32, b := st.a, c := st.b, d := st.c,
    e := (st.d + t1) % w32, f := st.e, g := st.f, h := st.g }

/-- Extend the reversed message schedule by k further words. -/
def extendSchedule (rev : List Nat) : Nat → List Nat
  | 0 => rev
  | k + 1 =>
      let next := (ssig1 (rev.getD 1 0) + rev.getD 6 0 + ssig0 (rev.getD 14 0) + rev.getD 15 0) % w32
      extendSchedule (next :: rev) k

/-- The 64-word message schedule of one block. -/
def schedule (block : List Nat) : List Nat := (extendSchedule block.reverse 48).reverse

/-- Process one 16-word block. -/
def processBlock (st : H8) (block : List Nat) : H8 :=
  let fin := ((K256.zip (schedule block)).foldl compressStep st)
  { a := (st.a + fin.a) % w32, b := (st.b + fin.b) % w32, c := (st.c + fin.c) % w32,
    d := (st.d + fin.d) % w32, e := (st.e + fin.e) % w32, f := (st.f + fin.f) % w32,
    g := (st.g + fin.g) % w32, h := (st.h + fin.h) % w32 }

/-- Big-endian 32-bit words of a byte list. -/
def toWords : List Nat → List Nat
  | b0 :: b1 :: b2 :: b3 :: rest => (((b0 * 256 + b1) * 256 + b2) * 256 + b3) :: toWords rest
  | _ => []

/-- SHA-256 padding: 0x80, zeros to 56 mod 64, 8-byte big-endian bit length. -/
def padMessage (msg : List Nat) : List Nat :=
  let L := msg.length
  let z := (120 - (L + 1) % 64) % 64
  msg ++ [128] ++ List.replicate z 0 ++
    ([56, 48, 40, 32, 24, 16, 8, 0] : List Nat).map (fun s => L * 8 / 2 ^ s % 256)

/-- Split a word list into 16-word blocks. -/
def chunks16 : List Nat → List (List Nat)
  | [] => []
  | w :: rest => ((w :: rest).take 16) :: chunks16 ((w :: rest).drop 16)
termination_by ws => ws.length
decreasing_by simp [List.length_drop]; omega

/-- The SHA-256 state after hashing a byte message. -/
def sha256Words (msg : List Nat) : H8 :=
  (chunks16 (toWords (padMessage msg))).foldl processBlock initH

/-- Eight lowercase hex digits of one 32-bit word. -/
def word8Hex (x : Nat) : List Char :=
  [hexChar (x / 268435456), hexChar (x / 16777216), hexChar (x / 1048576), hexChar (x / 65536),
   hexChar (x / 4096), hexChar (x / 256), hexChar (x / 16), hexChar x]

/-- The SHA-256 hex digest of a byte message, as hashlib hexdigest()
returns it: 64 lowercase hex characters. -/
def sha256Hex (msg : List Nat) : String :=
  let s := sha256Words msg
  String.mk (word8Hex s.a ++ word8Hex s.b ++ word8Hex s.c ++ word8Hex s.d ++
             word8Hex s.e ++ word8Hex s.f ++ word8Hex s.g ++ word8Hex s.h)

/-- Source api_v1.py lines 62 to 64: digest of the parameters passed,
hashlib.sha256(json.dumps(parameters, sort_keys=True).encode()).hexdigest(). -/
def _compute_digest_params (parameters : List (String × Value)) : String :=
  sha256Hex (strBytes (serializeValue (Value.obj parameters)))

mutual

/-- Equality of values after key-order normalization: identical atoms,
pointwise-equivalent arrays, and objects with duplicate-free key sets
whose fields agree up to insertion order at every nesting level. -/
inductive VEquiv : Value → Value → Prop where
  | null : VEquiv Value.null Value.null
  | bool (b : Bool) : VEquiv (Value.bool b) (Value.bool b)
  | num (n : Int) : VEquiv (Value.num n) (Value.num n)
  | str (s : String) : VEquiv (Value.str s) (Value.str s)
  | arr {xs ys : List Value} : AEquiv xs ys → VEquiv (Value.arr xs) (Value.arr ys)
  | obj {fs gs : List (String × Value)} :
      (fs.map Prod.fst).Nodup → (gs.map Prod.fst).Nodup → FEquiv fs gs →
      VEquiv (Value.obj fs) (Value.obj gs)

/-- Pointwise equivalence of arrays (order significant, as in JSON). -/
inductive AEquiv : List Value → List Value → Prop where
  | nil : AEquiv [] []
  | cons {x y : Value} {xs ys : List Value} : VEquiv x y → AEquiv xs ys → AEquiv (x :: xs) (y :: ys)

/-- Equivalence of object field lists: a permutation whose matched
fields carry the same key and equivalent values. -/
inductive FEquiv : List (String × Value) → List (String × Value) → Prop where
  | nil : FEquiv [] []
  | cons (k : String) {v w : Value} {fs gs : List (String × Value)} :
      VEquiv v w → FEquiv fs gs → FEquiv ((k, v) :: fs) ((k, w) :: gs)
  | swap (p q : String × Value) (fs : List (String × Value)) :
      FEquiv (p :: q :: fs) (q :: p :: fs)
  | trans {fs gs hs : List (String × Value)} : FEquiv fs gs → FEquiv gs hs → FEquiv fs hs

end

/-- Strict key order on serialized fields. -/
def keyLT (a b : String × String) : Prop := a.1 < b.1

instance : IsAntisymm (String × String) keyLT :=
  ⟨fun _ _ h1 h2 => absurd h2 (lt_asymm h1)⟩

theorem serializeFields_map_fst (fs : List (String × Value)) :
    (serializeFields fs).map Prod.fst = fs.map Prod.fst := by
  induction fs with
  | nil => simp [serializeFields]
  | cons p fs ih =>
      obtain ⟨k, v⟩ := p
      simp [serializeFields, ih]

theorem pairwise_keyLT_of_le_ne {l : List (String × String)} (hs : l.Sorted keyLE)
    (hne : l.Pairwise (fun a b : String × String => a.1 ≠ b.1)) : l.Sorted keyLT := by
  induction l with
  | nil => exact List.Pairwise.nil
  | cons p l ih =>
      rcases List.pairwise_cons.mp hs with ⟨hsh, hst⟩
      rcases List.pairwise_cons.mp hne with ⟨hnh, hnt⟩
      exact List.pairwise_cons.mpr
        ⟨fun q hq => lt_of_le_of_ne (hsh q hq) (hnh q hq), ih hst hnt⟩

theorem sorted_keyLE_strict {l : List (String × String)} (hs : l.Sorted keyLE)
    (hn : (l.map Prod.fst).Nodup) : l.Sorted keyLT :=
  pairwise_keyLT_of_le_ne hs (List.pairwise_map.mp hn)

theorem sortPairs_perm_eq {l1 l2 : List (String × String)} (hp : l1.Perm l2)
    (hn : (l1.map Prod.fst).Nodup) : sortPairs l1 = sortPairs l2 := by
  have hperm : (sortPairs l1).Perm (sortPairs l2) :=
    (List.perm_insertionSort keyLE l1).trans (hp.trans (List.perm_insertionSort keyLE l2).symm)
  have hn1 : ((sortPairs l1).map Prod.fst).Nodup :=
    (((List.perm_insertionSort keyLE l1).map Prod.fst).nodup_iff).mpr hn
  have hn2 : ((sortPairs l2).map Prod.fst).Nodup :=
    ((hperm.map Prod.fst).nodup_iff).mp hn1
  exact List.eq_of_perm_of_sorted hperm
    (sorted_keyLE_strict (List.sorted_insertionSort keyLE l1) hn1)
    (sorted_keyLE_strict (List.sorted_insertionSort keyLE l2) hn2)

theorem serialize_eq_of_equiv {v w : Value} (h : VEquiv v w) :
    serializeValue v = serializeValue w := by
  refine @VEquiv.rec
    (fun v w _ => serializeValue v = serializeValue w)
    (fun xs ys _ => serializeArr xs = serializeArr ys)
    (fun fs gs _ => (serializeFields fs).Perm (serializeFields gs))
    ?_ ?_ ?_ ?_ ?_ ?_ ?_ ?_ ?_ ?_ ?_ ?_ v w h
  · rfl
  · intro b; rfl
  · intro n; rfl
  · intro s; rfl
  · intro xs ys _ ih
    simp only [serializeValue]
    rw [ih]
  · intro fs gs hn1 _ _ ihp
    simp only [serializeValue]
    rw [sortPairs_perm_eq ihp (by rw [serializeFields_map_fst]; exact hn1)]
  · rfl
  · intro x y xs ys _ _ ih1 ih2
    simp only [serializeArr]
    rw [ih1, ih2]
  · exact List.Perm.refl []
  · intro k v' w' fs gs _ _ ihv ihf
    simp only [serializeFields]
    rw [ihv]
    exact ihf.cons _
  · intro p q fs
    obtain ⟨k1, v1⟩ := p
    obtain ⟨k2, v2⟩ := q
    simp only [serializeFields]
    exact List.Perm.swap _ _ _
  · intro _ _ _ _ _ ih1 ih2
    exact ih1.trans ih2

theorem word8Hex_subset (x : Nat) : ∀ c ∈ word8Hex x, c ∈ hexDigits := by
  intro c hc
  simp only [word8Hex, List.mem_cons, List.not_mem_nil, or_false] at hc
  rcases hc with h | h | h | h | h | h | h | h <;> (subst h; exact hexChar_mem _)

theorem sha256Hex_length (msg : List Nat) : (sha256Hex msg).length = 64 := by
  simp [sha256Hex, String.length, word8Hex]

theorem sha256Hex_subset (msg : List Nat) : ∀ c ∈ (sha256Hex msg).toList, c ∈ hexDigits := by
  intro c hc
  simp only [sha256Hex, String.toList, String.data, List.mem_append] at hc
  rcases hc with ((((((h | h) | h) | h) | h) | h) | h) | h <;> exact word8Hex_subset _ _ h

/-- Claim C2: the fingerprint is a pure, deterministic function of the
logical mapping: parameter mappings equal after key-order
normalization (`VEquiv`) have identical fingerprints, and the output
is the lowercase-hex encoding of a 256-bit digest (64 lowercase hex
characters) of the canonical sorted-key serialization. -/
theorem C2_fingerprint_pure_deterministic :
    ∀ p1 p2 : List (String × Value), VEquiv (Value.obj p1) (Value.obj p2) →
      _compute_digest_params p1 = _compute_digest_params p2 ∧
      (_compute_digest_params p1).length = 64 ∧
      ∀ c ∈ (_compute_digest_params p1).toList, c ∈ hexDigits := by
  intro p1 p2 h
  refine ⟨?_, sha256Hex_length _, sha256Hex_subset _⟩
  unfold _compute_digest_params strBytes
  rw [serialize_eq_of_equiv h]

/-- Witness for C2 at a concrete pair of mappings that differ only in
key insertion order. -/
theorem C2_fingerprint_pure_deterministic_witness :
    VEquiv (Value.obj [("b", Value.num 1), ("a", Value.str "x")])
           (Value.obj [("a", Value.str "x"), ("b", Value.num 1)]) ∧
    _compute_digest_params [("b", Value.num 1), ("a", Value.str "x")] =
      _compute_digest_params [("a", Value.str "x"), ("b", Value.num 1)] ∧
    (_compute_digest_params [("b", Value.num 1), ("a", Value.str "x")]).length = 64 :=
  have hv : VEquiv (Value.obj [("b", Value.num 1), ("a", Value.str "x")])
      (Value.obj [("a", Value.str "x"), ("b", Value.num 1)]) :=
    VEquiv.obj (by decide) (by decide)
      (FEquiv.swap ("b", Value.num 1) ("a", Value.str "x") [])
  ⟨hv, (C2_fingerprint_pure_deterministic _ _ hv).1,
   (C2_fingerprint_pure_deterministic _ _ hv).2.1⟩

/-- Association lookup in an object field list, as Python dict indexing. -/
def lookupArg : List (String × Value) → String → Option Value
  | [], _ => none
  | (k, v) :: fs, key => if k = key then some v else lookupArg fs key

/-- Dict lookup on a value: some for an object holding the key. -/
def lookupVal : Value → String → Option Value
  | Value.obj fs, key => lookupArg fs key
  | _, _ => none

/-- Python dict assignment d[k] = v: replace in place when the key
exists, append otherwise. -/
def objSet (fs : List (String × Value)) (k : String) (v : Value) : List (String × Value) :=
  if fs.any (fun p => p.1 = k) then fs.map (fun p => if p.1 = k then (k, v) else p)
  else fs ++ [(k, v)]

/-- Python truthiness of an optional dict entry, as the source tests
build_detail.get(...): absent, None, False, 0, empty string, empty
list and empty dict are falsy. -/
def truthy : Option Value → Bool
  | none => false
  | some Value.null => false
  | some (Value.bool b) => b
  | some (Value.num n) => decide (n ≠ 0)
  | some (Value.str s) => decide (s ≠ "")
  | some (Value.arr xs) => !xs.isEmpty
  | some (Value.obj fs) => !fs.isEmpty

/-- Python truthiness of an optional string (None and the empty string
are falsy). -/
def strTruthy : Option String → Bool
  | none => false
  | some s => decide (s ≠ "")

/-- A None-or-string argument as the dict value the source stores in
its parameter dicts. -/
def optVal : Option String → Value
  | none => Value.null
  | some s => Value.str s

/-- A None-or-int argument as a dict value. -/
def optIntVal : Option Int → Value
  | none => Value.null
  | some n => Value.num n

/-- A None-or-dict argument as a dict value. -/
def optValOf : Option Value → Value
  | none => Value.null
  | some v => v

/-- An ASCII single quote, used by the repr-style error messages. -/
def quoteCh : String := String.singleton (Char.ofNat 39)

/-- The stores the gateway talks to. -/
inductive StoreName where
  | analysesCache
  | provenanceCache
  | advisersCache
  | buildLogsAnalysesCache
  | analysisByDigest
  | buildLogs

/-- The job kinds the OpenShift client can schedule. -/
inductive SchedKind where
  | packageExtract
  | provenanceChecker
  | adviser
  | buildAnalyze

/-- One external call made by an orchestrator or resolver, in order. -/
inductive Event where
  | metadataFetch (image : String) (registry_user registry_password : Option String)
  | graphIndexUrls
  | cacheGet (s : StoreName) (key : String)
  | cachePut (s : StoreName) (key : String)
  | storeDoc (s : StoreName)
  | dispatch (kind : SchedKind) (parameters : List (String × Value))
  | resultRead (analysis_id : String)
  | schedStatus (analysis_id : String)
  | schedLog (analysis_id : String)

/-- Whether an event is a dispatch (schedule) call. -/
def isDispatch : Event → Bool
  | Event.dispatch _ _ => true
  | _ => false

/-- Number of dispatch calls in a trace. -/
def countDispatch (t : List Event) : Nat := (t.filter isDispatch).length

/-- The mutable state of the external stores the orchestrators write:
one key/value table per cache plus the id counters of the external
generators (number of jobs scheduled, number of build logs stored). -/
structure World where
  analysesCache : String → Option String
  provenanceCache : String → Option (String × Nat)
  advisersCache : String → Option (String × Nat)
  buildLogsAnalysesCache : String → Option String
  analysisByDigest : String → Option Value
  schedCount : Nat
  buildLogCount : Nat

/-- Last-write-wins upsert into a key/value table. -/
def upd {α : Type} (f : String → Option α) (k : String) (v : α) : String → Option α :=
  fun x => if x = k then some v else f x

theorem upd_self {α : Type} (f : String → Option α) (k : String) (v : α) :
    upd f k v k = some v := by
  simp [upd]

/-- Outcome of _do_get_image_metadata: the metadata digest on success,
or the (error body, status) pair the wrapper returns. -/
inductive MetaResult where
  | ok (digest : String)
  | err (resp : Value) (code : Nat)

/-- Outcome of Project.from_strings on an application stack: the
project.to_dict() field list on success, a ThothPythonException with
its message, or any other exception. -/
inductive ParseOutcome where
  | ok (projectDict : List (String × Value))
  | thothError (msg : String)
  | otherError

/-- The deterministic external collaborators (black boxes per the
spec): scheduler id generation (indexed by the number of jobs
scheduled so far), registry metadata fetch, the graph-database package
index listing, application-stack parsing, and build-log document id
generation. -/
structure ExtSvc where
  schedId : SchedKind → Nat → String
  imageMetadata : String → Option String → Option String → Bool → MetaResult
  indexUrls : List String
  parseProjectProv : Value → ParseOutcome
  parseProjectAdv : Value → Option Value → ParseOutcome
  buildLogDocId : Nat → String

/-- Source lines 642 to 644: schedule the given job; the response
carries the new analysis id, the parameters echo, cached false, and
status 202. -/
def _do_schedule (ext : ExtSvc) (w : World) (kind : SchedKind)
    (parameters : List (String × Value)) : (Value × Nat) × World × List Event :=
  ((Value.obj [("analysis_id", Value.str (ext.schedId kind w.schedCount)),
               ("parameters", Value.obj parameters), ("cached", Value.bool false)], 202),
   { w with schedCount := w.schedCount + 1 },
   [Event.dispatch kind parameters])

/-- The analysis_id field of a response body. -/
def getAnalysisId (v : Value) : String :=
  match lookupVal v "analysis_id" with
  | some (Value.str s) => s
  | _ => ""

/-- The arguments of post_analyze (source lines 67 to 76), with the
source defaults spelled at the call sites. -/
structure AnalyzeArgs where
  image : String
  debug : Bool
  registry_user : Option String
  registry_password : Option String
  environment_type : Option String
  origin : Option String
  verify_tls : Bool
  force : Bool

/-- The parameters dict of post_analyze: locals() minus the popped
force, with environment_type defaulted to runtime (source lines 78 to
81). -/
def analyzeParameters (a : AnalyzeArgs) : List (String × Value) :=
  [("image", Value.str a.image), ("debug", Value.bool a.debug),
   ("registry_user", optVal a.registry_user), ("registry_password", optVal a.registry_password),
   ("environment_type", Value.str (a.environment_type.getD "runtime")),
   ("origin", optVal a.origin), ("verify_tls", Value.bool a.verify_tls)]

/-- The analyses-cache key (source line 97): image content digest, a
plus sign, and the digest of the parameters. -/
def analyzeCacheKey (dg : String) (a : AnalyzeArgs) : String :=
  dg ++ "+" ++ _compute_digest_params (analyzeParameters a)

/-- Source lines 67 to 123: the image-analysis orchestrator. Fetch
registry metadata (propagating its error outcome), compute the cache
key, return a cached hit unless forced, otherwise schedule a
package-extract job, record the response in the by-digest store and,
on 202, in the analyses cache. -/
def post_analyze (ext : ExtSvc) (w : World) (a : AnalyzeArgs) :
    (Value × Nat) × World × List Event :=
  let parameters := analyzeParameters a
  let mev := Event.metadataFetch a.image a.registry_user a.registry_password
  match ext.imageMetadata a.image a.registry_user a.registry_password a.verify_tls with
  | MetaResult.err resp code => ((resp, code), w, [mev])
  | MetaResult.ok dg =>
      let key := analyzeCacheKey dg a
      let sched := fun (evs0 : List Event) =>
        let r := _do_schedule ext w SchedKind.packageExtract parameters
        let w1 := { r.2.1 with analysisByDigest := upd (r.2.1).analysisByDigest dg r.1.1 }
        if r.1.2 = 202 then
          ((r.1.1, r.1.2),
           { w1 with analysesCache := upd w1.analysesCache key (getAnalysisId r.1.1) },
           evs0 ++ r.2.2 ++ [Event.storeDoc StoreName.analysisByDigest,
                             Event.cachePut StoreName.analysesCache key])
        else ((r.1.1, r.1.2), w1, evs0 ++ r.2.2 ++ [Event.storeDoc StoreName.analysisByDigest])
      match a.force with
      | false =>
          match w.analysesCache key with
          | some aid =>
              ((Value.obj [("analysis_id", Value.str aid), ("cached", Value.bool true),
                           ("parameters", Value.obj parameters)], 202),
               w, [mev, Event.cacheGet StoreName.analysesCache key])
          | none => sched [mev, Event.cacheGet StoreName.analysesCache key]
      | true => sched [mev]

/-- The arguments of post_provenance_python (source line 181). -/
structure ProvArgs where
  application_stack : Value
  origin : Option String
  debug : Bool
  force : Bool

/-- The provenance parameters dict as echoed by the early stack-parse
error returns: locals() with force still present (source lines 183 to
190). -/
def provParamsEcho0 (a : ProvArgs) : List (String × Value) :=
  [("application_stack", a.application_stack), ("origin", optVal a.origin),
   ("debug", Value.bool a.debug), ("force", Value.bool a.force)]

/-- The provenance parameters dict after the whitelist is attached and
force popped (source lines 194 to 196). -/
def provParams (a : ProvArgs) (urls : List String) : List (String × Value) :=
  [("application_stack", a.application_stack), ("origin", optVal a.origin),
   ("debug", Value.bool a.debug),
   ("whitelisted_sources", Value.arr (urls.map Value.str))]

/-- The provenance cache key (source lines 197 to 199): digest of the
project dict extended with origin and the whitelisted sources. -/
def provCacheKey (projectDict : List (String × Value)) (a : ProvArgs)
    (urls : List String) : String :=
  _compute_digest_params
    (projectDict ++ [("origin", optVal a.origin),
                     ("whitelisted_sources", Value.arr (urls.map Value.str))])

/-- The schedule-and-record tail of post_provenance_python (source
lines 213 to 221): dispatch, then on 202 upsert the cache record with
the new analysis id and the current timestamp. -/
def provSchedule (ext : ExtSvc) (w : World) (now : Nat) (key : String)
    (parameters : List (String × Value)) (evs0 : List Event) :
    (Value × Nat) × World × List Event :=
  let r := _do_schedule ext w SchedKind.provenanceChecker parameters
  if r.1.2 = 202 then
    ((r.1.1, r.1.2),
     { r.2.1 with provenanceCache := upd (r.2.1).provenanceCache key (getAnalysisId r.1.1, now) },
     evs0 ++ r.2.2 ++ [Event.cachePut StoreName.provenanceCache key])
  else ((r.1.1, r.1.2), r.2.1, evs0 ++ r.2.2)

/-- Source lines 181 to 221: the provenance-check orchestrator.
Reject an invalid stack before any external call, fetch the
whitelisted package indexes, compute the cache key, and unless forced
return a cache record still inside its TTL; otherwise schedule a
provenance-checker job and upsert the record. -/
def post_provenance_python (ext : ExtSvc) (w : World) (now ttl : Nat) (a : ProvArgs) :
    (Value × Nat) × World × List Event :=
  match ext.parseProjectProv a.application_stack with
  | ParseOutcome.thothError msg =>
      ((Value.obj [("parameters", Value.obj (provParamsEcho0 a)),
                   ("error", Value.str ("Invalid application stack supplied: " ++ msg))], 400),
       w, [])
  | ParseOutcome.otherError =>
      ((Value.obj [("parameters", Value.obj (provParamsEcho0 a)),
                   ("error", Value.str "Invalid application stack supplied")], 400),
       w, [])
  | ParseOutcome.ok projectDict =>
      let parameters := provParams a ext.indexUrls
      let key := provCacheKey projectDict a ext.indexUrls
      match a.force with
      | true => provSchedule ext w now key parameters [Event.graphIndexUrls]
      | false =>
          match w.provenanceCache key with
          | some rec0 =>
              if rec0.2 + ttl > now then
                ((Value.obj [("analysis_id", Value.str rec0.1), ("cached", Value.bool true),
                             ("parameters", Value.obj parameters)], 202),
                 w, [Event.graphIndexUrls, Event.cacheGet StoreName.provenanceCache key])
              else provSchedule ext w now key parameters
                [Event.graphIndexUrls, Event.cacheGet StoreName.provenanceCache key]
          | none => provSchedule ext w now key parameters
              [Event.graphIndexUrls, Event.cacheGet StoreName.provenanceCache key]

/-- The input dict of post_advise_python before the source pops its
keys apart (source lines 255 to 261). -/
structure AdviseInput where
  application_stack : Value
  runtime_environment : Option Value
  library_usage : Option Value

/-- The arguments of post_advise_python (source lines 244 to 253). -/
structure AdviseArgs where
  input : AdviseInput
  recommendation_type : String
  count : Option Int
  limit : Option Int
  limit_latest_versions : Option Int
  origin : Option String
  debug : Bool
  force : Bool

/-- The adviser parameters dict after the source moves the input keys
into it and pops input and force (source lines 255 to 262): dict
insertion order is the remaining locals followed by the keys the
source assigns. -/
def adviseParams (a : AdviseArgs) : List (String × Value) :=
  [("recommendation_type", Value.str a.recommendation_type),
   ("count", optIntVal a.count), ("limit", optIntVal a.limit),
   ("limit_latest_versions", optIntVal a.limit_latest_versions),
   ("origin", optVal a.origin), ("debug", Value.bool a.debug),
   ("application_stack", a.input.application_stack),
   ("runtime_environment", optValOf a.input.runtime_environment),
   ("library_usage", optValOf a.input.library_usage)]

/-- The adviser cache key (source lines 282 to 292): digest of the
project dict extended with count, limit, library usage, latest-version
limit, recommendation type and origin. -/
def adviseCacheKey (projectDict : List (String × Value)) (a : AdviseArgs) : String :=
  _compute_digest_params
    (projectDict ++ [("count", optIntVal a.count), ("limit", optIntVal a.limit),
                     ("library_usage", optValOf a.input.library_usage),
                     ("limit_latest_versions", optIntVal a.limit_latest_versions),
                     ("recommendation_type", Value.str a.recommendation_type),
                     ("origin", optVal a.origin)])

/-- The schedule-and-record tail of post_advise_python (source lines
302 to 308). -/
def adviseSchedule (ext : ExtSvc) (w : World) (now : Nat) (key : String)
    (parameters : List (String × Value)) (evs0 : List Event) :
    (Value × Nat) × World × List Event :=
  let r := _do_schedule ext w SchedKind.adviser parameters
  if r.1.2 = 202 then
    ((r.1.1, r.1.2),
     { r.2.1 with advisersCache := upd (r.2.1).advisersCache key (getAnalysisId r.1.1, now) },
     evs0 ++ r.2.2 ++ [Event.cachePut StoreName.advisersCache key])
  else ((r.1.1, r.1.2), r.2.1, evs0 ++ r.2.2)

/-- Source lines 244 to 308: the adviser orchestrator. Normalize the
input dict into the parameters, reject an invalid stack, compute the
cache key, and unless forced return a cache record still inside its
TTL; otherwise schedule an adviser job and upsert the record. -/
def post_advise_python (ext : ExtSvc) (w : World) (now ttl : Nat) (a : AdviseArgs) :
    (Value × Nat) × World × List Event :=
  let parameters := adviseParams a
  match ext.parseProjectAdv a.input.application_stack a.input.runtime_environment with
  | ParseOutcome.thothError msg =>
      ((Value.obj [("parameters", Value.obj parameters),
                   ("error", Value.str ("Invalid application stack supplied: " ++ msg))], 400),
       w, [])
  | ParseOutcome.otherError =>
      ((Value.obj [("parameters", Value.obj parameters),
                   ("error", Value.str "Invalid application stack supplied")], 400),
       w, [])
  | ParseOutcome.ok projectDict =>
      let key := adviseCacheKey projectDict a
      match a.force with
      | true => adviseSchedule ext w now key parameters []
      | false =>
          match w.advisersCache key with
          | some rec0 =>
              if rec0.2 + ttl > now then
                ((Value.obj [("analysis_id", Value.str rec0.1), ("cached", Value.bool true),
                             ("parameters", Value.obj parameters)], 202),
                 w, [Event.cacheGet StoreName.advisersCache key])
              else adviseSchedule ext w now key parameters
                [Event.cacheGet StoreName.advisersCache key]
          | none => adviseSchedule ext w now key parameters
              [Event.cacheGet StoreName.advisersCache key]

/-- The build-log-analysis parameters dict at fingerprint time: locals
with force still present, since the source computes the digest before
popping force (source lines 479 to 483). -/
def buildlogParams (log_info : Value) (force : Bool) : List (String × Value) :=
  [("log_info", log_info), ("force", Value.bool force)]

/-- Source lines 477 to 501: the build-log-analysis orchestrator.
Unless forced, return a cache hit (no TTL on this cache); otherwise
store the log (post_buildlog, source lines 519 to 525), schedule a
build-analyze job on the stored document id, and on 202 upsert the
cache record. -/
def post_buildlog_analyze (ext : ExtSvc) (w : World) (log_info : Value) (force : Bool) :
    (Value × Nat) × World × List Event :=
  let key := _compute_digest_params (buildlogParams log_info force)
  let sched := fun (evs0 : List Event) =>
    let doc_id := ext.buildLogDocId w.buildLogCount
    let w1 := { w with buildLogCount := w.buildLogCount + 1 }
    let r := _do_schedule ext w1 SchedKind.buildAnalyze [("document_id", Value.str doc_id)]
    if r.1.2 = 202 then
      ((r.1.1, r.1.2),
       { r.2.1 with buildLogsAnalysesCache := upd (r.2.1).buildLogsAnalysesCache key (getAnalysisId r.1.1) },
       evs0 ++ [Event.storeDoc StoreName.buildLogs] ++ r.2.2 ++
         [Event.cachePut StoreName.buildLogsAnalysesCache key])
    else ((r.1.1, r.1.2), r.2.1, evs0 ++ [Event.storeDoc StoreName.buildLogs] ++ r.2.2)
  match force with
  | false =>
      match w.buildLogsAnalysesCache key with
      | some aid =>
          ((Value.obj [("analysis_id", Value.str aid), ("cached", Value.bool true),
                       ("parameters", Value.obj [("log_info", log_info)])], 202),
           w, [Event.cacheGet StoreName.buildLogsAnalysesCache key])
      | none => sched [Event.cacheGet StoreName.buildLogsAnalysesCache key]
  | true => sched []

/-- Python str.startswith, spelled over the character lists so that it
evaluates by kernel reduction. -/
def pyStartsWith (s pre : String) : Bool := pre.toList.isPrefixOf s.toList

/-- The arguments of post_build (source lines 413 to 422). -/
structure BuildArgs where
  build_detail : List (String × Value)
  debug : Bool
  registry_user : Option String
  registry_password : Option String
  environment_type : Option String
  origin : Option String
  registry_verify_tls : Bool
  force : Bool

/-- A dict entry read as the string the source passes on. -/
def strOf : Option Value → String
  | some (Value.str s) => s
  | _ => ""

/-- The post_analyze invocation for the output image (source lines 428
to 437): the caller's registry credentials are passed through. -/
def outArgs (b : BuildArgs) : AnalyzeArgs :=
  { image := strOf (lookupArg b.build_detail "output_image"), debug := b.debug,
    registry_user := b.registry_user, registry_password := b.registry_password,
    environment_type := b.environment_type, origin := b.origin,
    verify_tls := b.registry_verify_tls, force := b.force }

/-- The post_analyze invocation for the base image (source lines 444
to 451): registry_user and registry_password are not passed, so they
take their None defaults. -/
def baseArgs (b : BuildArgs) : AnalyzeArgs :=
  { image := strOf (lookupArg b.build_detail "base_image"), debug := b.debug,
    registry_user := none, registry_password := none,
    environment_type := b.environment_type, origin := b.origin,
    verify_tls := b.registry_verify_tls, force := b.force }

/-- The composite response dict, in the key insertion order of source
line 424. -/
def mkBuildResp (base out log : Value) : Value :=
  Value.obj [("base_image_analysis", base), ("output_image_analysis", out),
             ("build_log_analysis", log)]

/-- The empty sub-response a skipped sub-operation leaves in place. -/
def emptyObj : Value := Value.obj []

/-- A response key read as Python dict.get: null when absent. -/
def optGetNull (v : Value) (k : String) : Value := (lookupVal v k).getD Value.null

/-- The build-log step of post_build (source lines 456 to 465): attach
the two analysis ids to the build detail and run the build-log
analysis, short-circuiting on a non-202 status. -/
def post_build_log (ext : ExtSvc) (w : World) (b : BuildArgs)
    (outResp baseResp : Value) (evs : List Event) :
    (Value × Nat) × World × List Event :=
  if truthy (lookupArg b.build_detail "build_log") then
    let d1 := objSet b.build_detail "output_image_analysis_id" (optGetNull outResp "analysis_id")
    let d2 := objSet d1 "base_image_analysis_id" (optGetNull baseResp "analysis_id")
    let rLog := post_buildlog_analyze ext w (Value.obj d2) b.force
    ((mkBuildResp baseResp outResp rLog.1.1,
      if rLog.1.2 = 202 then 202 else rLog.1.2), rLog.2.1, evs ++ rLog.2.2)
  else ((mkBuildResp baseResp outResp emptyObj, 202), w, evs)

/-- The base-image step of post_build (source lines 442 to 454):
run the base-image analysis without credentials, short-circuiting on a
non-202 status. -/
def post_build_base (ext : ExtSvc) (w : World) (b : BuildArgs)
    (outResp : Value) (evs : List Event) :
    (Value × Nat) × World × List Event :=
  if truthy (lookupArg b.build_detail "base_image") then
    let rBase := post_analyze ext w (baseArgs b)
    if rBase.1.2 = 202 then
      post_build_log ext rBase.2.1 b outResp rBase.1.1 (evs ++ rBase.2.2)
    else ((mkBuildResp rBase.1.1 outResp emptyObj, rBase.1.2), rBase.2.1, evs ++ rBase.2.2)
  else post_build_log ext w b outResp emptyObj evs

/-- Source lines 413 to 474: the composite build orchestrator. The
source runs output image, then base image, then build log, each only
when its key is truthy, short-circuits on the first non-202
sub-status, and checks at the end that some information was provided;
since no sub-operation runs when all three keys are falsy, that final
check is rendered here as the equivalent up-front test. -/
def post_build (ext : ExtSvc) (w : World) (b : BuildArgs) :
    (Value × Nat) × World × List Event :=
  if truthy (lookupArg b.build_detail "output_image") = false ∧
     truthy (lookupArg b.build_detail "base_image") = false ∧
     truthy (lookupArg b.build_detail "build_log") = false then
    ((Value.obj [("error", Value.str "Bad Request! No information provided")], 400), w, [])
  else
    if truthy (lookupArg b.build_detail "output_image") then
      let rOut := post_analyze ext w (outArgs b)
      if rOut.1.2 = 202 then
        post_build_base ext rOut.2.1 b rOut.1.1 rOut.2.2
      else ((mkBuildResp emptyObj rOut.1.1 emptyObj, rOut.1.2), rOut.2.1, rOut.2.2)
    else post_build_base ext w b emptyObj []

/-- The scheduler's status report for a job: its state string and exit
code. -/
structure JobStatus where
  state : String
  exit_code : Int

/-- The status report as the dict attached to responses. -/
def statusValue (st : JobStatus) : Value :=
  Value.obj [("state", Value.str st.state), ("exit_code", Value.num st.exit_code)]

/-- The 400 body returned when the analysis id does not carry the
expected operation prefix (source lines 583, 618, 632). -/
def wrongIdResp (analysis_id : String) : Value :=
  Value.obj [("error", Value.str "Wrong analysis id provided"),
             ("parameters", Value.obj [("analysis_id", Value.str analysis_id)])]

/-- The 404 body of _get_document (source line 611). -/
def docNotFoundResp (analysis_id : String) : Value :=
  Value.obj [("error", Value.str ("Requested result for analysis " ++ quoteCh ++ analysis_id ++
                                  quoteCh ++ " was not found")),
             ("parameters", Value.obj [("analysis_id", Value.str analysis_id)])]

/-- The 202 body for a result-store miss with a running or
just-terminated-successfully job (source line 600). -/
def inProgressResp (st : JobStatus) (analysis_id : String) : Value :=
  Value.obj [("error", Value.str "Analysis is still in progress"), ("status", statusValue st),
             ("parameters", Value.obj [("analysis_id", Value.str analysis_id)])]

/-- The 400 body for a job terminated with a nonzero exit code (source
line 602). -/
def notSuccessfulResp (st : JobStatus) (analysis_id : String) : Value :=
  Value.obj [("error", Value.str "Analysis was not successful"), ("status", statusValue st),
             ("parameters", Value.obj [("analysis_id", Value.str analysis_id)])]

/-- The 202 body for a job still being scheduled (source line 604). -/
def beingScheduledResp (st : JobStatus) (analysis_id : String) : Value :=
  Value.obj [("error", Value.str "Analysis is being scheduled"), ("status", statusValue st),
             ("parameters", Value.obj [("analysis_id", Value.str analysis_id)])]

/-- Source lines 578 to 611: document retrieval. Validate the prefix
before any external call, try the result store, and on a miss in a
truthy namespace interpret the scheduler's state report; an unknown
state raises (modelled as Except.error), a scheduler not-found falls
through to the 404. -/
def _get_document (retrieveDoc : String → Option Value)
    (getStatus : String → Option JobStatus) (analysis_id : String)
    (namePrefix : Option String) (ns : Option String) :
    Except String (Value × Nat) × List Event :=
  if strTruthy namePrefix && !(pyStartsWith analysis_id (namePrefix.getD "")) then
    (Except.ok (wrongIdResp analysis_id, 400), [])
  else
    match retrieveDoc analysis_id with
    | some result => (Except.ok (result, 200), [Event.resultRead analysis_id])
    | none =>
        if strTruthy ns then
          match getStatus analysis_id with
          | some st =>
              if st.state = "running" ∨ (st.state = "terminated" ∧ st.exit_code = 0) then
                (Except.ok (inProgressResp st analysis_id, 202),
                 [Event.resultRead analysis_id, Event.schedStatus analysis_id])
              else if st.state = "terminated" then
                (Except.ok (notSuccessfulResp st analysis_id, 400),
                 [Event.resultRead analysis_id, Event.schedStatus analysis_id])
              else if st.state = "scheduling" ∨ st.state = "waiting" ∨ st.state = "registered" then
                (Except.ok (beingScheduledResp st analysis_id, 202),
                 [Event.resultRead analysis_id, Event.schedStatus analysis_id])
              else
                (Except.error ("Unreachable - unknown job state: " ++ st.state),
                 [Event.resultRead analysis_id, Event.schedStatus analysis_id])
          | none => (Except.ok (docNotFoundResp analysis_id, 404),
                     [Event.resultRead analysis_id, Event.schedStatus analysis_id])
        else (Except.ok (docNotFoundResp analysis_id, 404), [Event.resultRead analysis_id])

/-- Source lines 614 to 625: job log retrieval. Validate the prefix
before any external call; a scheduler not-found maps to 404. -/
def _get_job_log (getLog : String → Option String) (analysis_id : String)
    (namePrefix : String) : (Value × Nat) × List Event :=
  let parameters : Value := Value.obj [("analysis_id", Value.str analysis_id)]
  if !(pyStartsWith analysis_id namePrefix) then ((wrongIdResp analysis_id, 400), [])
  else
    match getLog analysis_id with
    | none =>
        ((Value.obj [("parameters", parameters),
                     ("error", Value.str ("No analysis with id " ++ analysis_id ++ " was found"))],
          404), [Event.schedLog analysis_id])
    | some log =>
        ((Value.obj [("parameters", parameters), ("log", Value.str log)], 200),
         [Event.schedLog analysis_id])

/-- Source lines 628 to 639: job status retrieval. Validate the prefix
before any external call; the bare success dict of the source is
served as 200. -/
def _get_job_status (getStatus : String → Option JobStatus) (analysis_id : String)
    (namePrefix : String) : (Value × Nat) × List Event :=
  let parameters : Value := Value.obj [("analysis_id", Value.str analysis_id)]
  if !(pyStartsWith analysis_id namePrefix) then ((wrongIdResp analysis_id, 400), [])
  else
    match getStatus analysis_id with
    | none =>
        ((Value.obj [("parameters", parameters),
                     ("error", Value.str ("Requested status for analysis " ++ quoteCh ++
                                          analysis_id ++ quoteCh ++ " was not found"))],
          404), [Event.schedStatus analysis_id])
    | some st =>
        ((Value.obj [("parameters", parameters), ("status", statusValue st)], 200),
         [Event.schedStatus analysis_id])

/-- Source line 57: the fixed page size of the listing endpoints. -/
def PAGINATION_SIZE : Nat := 100

/-- Source lines 562 to 575: listing with pagination. islice of the
document listing from page times size, size items long, plus the
pagination metadata headers. -/
def _do_listing (docs : List Value) (page : Nat) : (Value × Nat) × Value :=
  let results := (docs.drop (page * PAGINATION_SIZE)).take PAGINATION_SIZE
  ((Value.obj [("results", Value.arr results),
               ("parameters", Value.obj [("page", Value.num (page : Int))])], 200),
   Value.obj [("page", Value.num (page : Int)), ("page_size", Value.num (PAGINATION_SIZE : Int)),
              ("results_count", Value.num (results.length : Int))])

/-- Claim C4: for every result, log, or status retrieval with an
expected operation prefix, a handle that does not start with the
prefix yields the 400 "Wrong analysis id provided" body with an empty
external-call trace; external calls happen only after the prefix check
passes. -/
theorem C4_prefix_check_before_external_calls :
    ∀ (retrieveDoc : String → Option Value) (getStatus : String → Option JobStatus)
      (getLog : String → Option String) (getStatusRep : String → Option JobStatus)
      (analysis_id pre : String) (ns : Option String),
      pre ≠ "" → pyStartsWith analysis_id pre = false →
      _get_document retrieveDoc getStatus analysis_id (some pre) ns =
        (Except.ok (wrongIdResp analysis_id, 400), []) ∧
      _get_job_log getLog analysis_id pre = ((wrongIdResp analysis_id, 400), []) ∧
      _get_job_status getStatusRep analysis_id pre = ((wrongIdResp analysis_id, 400), []) := by
  intro rd gs gl gsr analysis_id pre ns hpre hsw
  refine ⟨?_, ?_, ?_⟩ <;>
    simp [_get_document, _get_job_log, _get_job_status, strTruthy, hpre, hsw]

/-- Witness for C4 at the spec's own example: an adviser handle
queried against the package-extract prefix. -/
theorem C4_prefix_check_before_external_calls_witness :
    ("package-extract-" : String) ≠ "" ∧
    pyStartsWith "adviser-123" "package-extract-" = false ∧
    (_get_document (fun _ => none) (fun _ => none) "adviser-123"
        (some "package-extract-") (some "thoth-middletier") =
      (Except.ok (wrongIdResp "adviser-123", 400), []) ∧
     _get_job_log (fun _ => none) "adviser-123" "package-extract-" =
      ((wrongIdResp "adviser-123", 400), []) ∧
     _get_job_status (fun _ => none) "adviser-123" "package-extract-" =
      ((wrongIdResp "adviser-123", 400), [])) :=
  ⟨by decide, by decide,
   C4_prefix_check_before_external_calls (fun _ => none) (fun _ => none) (fun _ => none)
     (fun _ => none) "adviser-123" "package-extract-" (some "thoth-middletier")
     (by decide) (by decide)⟩

/-- Claim C3: on a result-store miss with a valid prefix and truthy
namespace, the scheduler state maps to the outcome exactly as the
source does: running or terminated-with-exit-0 give 202 (in progress,
never failure), terminated with nonzero exit gives 400 with the status
payload attached, scheduling/waiting/registered give 202 (being
scheduled), any other state is a fatal internal error, and a scheduler
not-found maps to 404. -/
theorem C3_resolver_race_reconciliation :
    ∀ (retrieveDoc : String → Option Value) (getStatus : String → Option JobStatus)
      (analysis_id pre ns : String),
      pyStartsWith analysis_id pre = true → ns ≠ "" → retrieveDoc analysis_id = none →
      ((∀ st : JobStatus, getStatus analysis_id = some st →
        ((st.state = "running" →
          _get_document retrieveDoc getStatus analysis_id (some pre) (some ns) =
            (Except.ok (inProgressResp st analysis_id, 202),
             [Event.resultRead analysis_id, Event.schedStatus analysis_id])) ∧
         (st.state = "terminated" → st.exit_code = 0 →
          _get_document retrieveDoc getStatus analysis_id (some pre) (some ns) =
            (Except.ok (inProgressResp st analysis_id, 202),
             [Event.resultRead analysis_id, Event.schedStatus analysis_id])) ∧
         (st.state = "terminated" → st.exit_code ≠ 0 →
          _get_document retrieveDoc getStatus analysis_id (some pre) (some ns) =
            (Except.ok (notSuccessfulResp st analysis_id, 400),
             [Event.resultRead analysis_id, Event.schedStatus analysis_id])) ∧
         (st.state = "scheduling" ∨ st.state = "waiting" ∨ st.state = "registered" →
          _get_document retrieveDoc getStatus analysis_id (some pre) (some ns) =
            (Except.ok (beingScheduledResp st analysis_id, 202),
             [Event.resultRead analysis_id, Event.schedStatus analysis_id])) ∧
         (st.state ≠ "running" → st.state ≠ "terminated" → st.state ≠ "scheduling" →
          st.state ≠ "waiting" → st.state ≠ "registered" →
          _get_document retrieveDoc getStatus analysis_id (some pre) (some ns) =
            (Except.error ("Unreachable - unknown job state: " ++ st.state),
             [Event.resultRead analysis_id, Event.schedStatus analysis_id])))) ∧
       (getStatus analysis_id = none →
        _get_document retrieveDoc getStatus analysis_id (some pre) (some ns) =
          (Except.ok (docNotFoundResp analysis_id, 404),
           [Event.resultRead analysis_id, Event.schedStatus analysis_id]))) := by
  intro rd gs analysis_id pre ns hsw hns hmiss
  constructor
  · intro st hst
    refine ⟨?_, ?_, ?_, ?_, ?_⟩
    · intro h
      simp [_get_document, hsw, hmiss, strTruthy, hns, hst, h]
    · intro h1 h2
      simp [_get_document, hsw, hmiss, strTruthy, hns, hst, h1, h2]
    · intro h1 h2
      simp [_get_document, hsw, hmiss, strTruthy, hns, hst, h1, h2]
    · intro h
      rcases h with h | h | h <;>
        simp [_get_document, hsw, hmiss, strTruthy, hns, hst, h]
    · intro h1 h2 h3 h4 h5
      simp [_get_document, hsw, hmiss, strTruthy, hns, hst, h1, h2, h3, h4, h5]
  · intro hnone
    simp [_get_document, hsw, hmiss, strTruthy, hns, hnone]

/-- Witness for C3 at the spec's test points: result-store miss with
terminated exit 0 (in progress), terminated exit 7 (failed with status
attached), and scheduler not-found (404). -/
theorem C3_resolver_race_reconciliation_witness :
    pyStartsWith "package-extract-abc" "package-extract-" = true ∧
    _get_document (fun _ => none) (fun _ => some ⟨"terminated", 0⟩) "package-extract-abc"
        (some "package-extract-") (some "thoth-middletier") =
      (Except.ok (inProgressResp ⟨"terminated", 0⟩ "package-extract-abc", 202),
       [Event.resultRead "package-extract-abc", Event.schedStatus "package-extract-abc"]) ∧
    _get_document (fun _ => none) (fun _ => some ⟨"terminated", 7⟩) "package-extract-abc"
        (some "package-extract-") (some "thoth-middletier") =
      (Except.ok (notSuccessfulResp ⟨"terminated", 7⟩ "package-extract-abc", 400),
       [Event.resultRead "package-extract-abc", Event.schedStatus "package-extract-abc"]) ∧
    _get_document (fun _ => none) (fun _ => none) "package-extract-abc"
        (some "package-extract-") (some "thoth-middletier") =
      (Except.ok (docNotFoundResp "package-extract-abc", 404),
       [Event.resultRead "package-extract-abc", Event.schedStatus "package-extract-abc"]) :=
  ⟨by decide,
   ((C3_resolver_race_reconciliation (fun _ => none) (fun _ => some ⟨"terminated", 0⟩)
       "package-extract-abc" "package-extract-" "thoth-middletier" (by decide) (by decide)
       rfl).1 ⟨"terminated", 0⟩ rfl).2.1 rfl rfl,
   ((C3_resolver_race_reconciliation (fun _ => none) (fun _ => some ⟨"terminated", 7⟩)
       "package-extract-abc" "package-extract-" "thoth-middletier" (by decide) (by decide)
       rfl).1 ⟨"terminated", 7⟩ rfl).2.2.1 rfl (by decide),
   (C3_resolver_race_reconciliation (fun _ => none) (fun _ => none)
       "package-extract-abc" "package-extract-" "thoth-middletier" (by decide) (by decide)
       rfl).2 rfl⟩

/-- Claim C9: every listing of N documents at page k returns exactly
min(PAGE_SIZE, N - k times PAGE_SIZE) items with PAGE_SIZE the fixed
constant 100, the empty list for out-of-range pages, never throws (the
model is a total function), and reports the page, page_size and
results_count metadata. -/
theorem C9_listing_pagination :
    ∀ (docs : List Value) (page : Nat),
      (_do_listing docs page).1.2 = 200 ∧
      ((docs.drop (page * PAGINATION_SIZE)).take PAGINATION_SIZE).length =
        min PAGINATION_SIZE (docs.length - page * PAGINATION_SIZE) ∧
      (docs.length ≤ page * PAGINATION_SIZE →
        (docs.drop (page * PAGINATION_SIZE)).take PAGINATION_SIZE = []) ∧
      (_do_listing docs page).1.1 =
        Value.obj [("results", Value.arr ((docs.drop (page * PAGINATION_SIZE)).take PAGINATION_SIZE)),
                   ("parameters", Value.obj [("page", Value.num (page : Int))])] ∧
      (_do_listing docs page).2 =
        Value.obj [("page", Value.num (page : Int)),
                   ("page_size", Value.num (PAGINATION_SIZE : Int)),
                   ("results_count",
                    Value.num ((min PAGINATION_SIZE (docs.length - page * PAGINATION_SIZE) : Nat) : Int))] := by
  intro docs page
  have hlen : ((docs.drop (page * PAGINATION_SIZE)).take PAGINATION_SIZE).length =
      min PAGINATION_SIZE (docs.length - page * PAGINATION_SIZE) := by
    simp [List.length_take, List.length_drop]
  refine ⟨rfl, hlen, ?_, rfl, ?_⟩
  · intro h
    have h0 : ((docs.drop (page * PAGINATION_SIZE)).take PAGINATION_SIZE).length = 0 := by
      rw [hlen]
      simp [PAGINATION_SIZE] at h ⊢
      omega
    exact List.length_eq_zero.mp h0
  · simp only [_do_listing, hlen]

/-- Witness for C9: a 3-document listing at page 0 (3 items) and at
page 2 (out of range, empty). -/
theorem C9_listing_pagination_witness :
    (((List.replicate 3 Value.null).drop (0 * PAGINATION_SIZE)).take PAGINATION_SIZE).length =
      min PAGINATION_SIZE ((List.replicate 3 Value.null).length - 0 * PAGINATION_SIZE) ∧
    (List.replicate 3 Value.null).length ≤ 2 * PAGINATION_SIZE ∧
    ((List.replicate 3 Value.null).drop (2 * PAGINATION_SIZE)).take PAGINATION_SIZE = [] :=
  ⟨(C9_listing_pagination (List.replicate 3 Value.null) 0).2.1,
   by decide,
   (C9_listing_pagination (List.replicate 3 Value.null) 2).2.2.1 (by decide)⟩

theorem post_buildlog_analyze_status (ext : ExtSvc) (w : World) (log_info : Value) (force : Bool) :
    (post_buildlog_analyze ext w log_info force).1.2 = 202 := by
  unfold post_buildlog_analyze
  cases force
  · rcases h : w.buildLogsAnalysesCache (_compute_digest_params (buildlogParams log_info false)) with
      _ | aid <;> simp [h, _do_schedule]
  · simp [_do_schedule]

theorem post_build_log_trace (ext : ExtSvc) (w : World) (b : BuildArgs)
    (outResp baseResp : Value) (evs : List Event) :
    ∃ rest, (post_build_log ext w b outResp baseResp evs).2.2 = evs ++ rest := by
  unfold post_build_log
  by_cases h : truthy (lookupArg b.build_detail "build_log") <;> simp [h]

theorem post_build_base_trace (ext : ExtSvc) (w : World) (b : BuildArgs)
    (outResp : Value) (evs : List Event) :
    ∃ rest, (post_build_base ext w b outResp evs).2.2 = evs ++ rest := by
  unfold post_build_base
  by_cases h : truthy (lookupArg b.build_detail "base_image") <;> simp [h]
  · by_cases hs : (post_analyze ext w (baseArgs b)).1.2 = 202 <;> simp [hs]
    · obtain ⟨rest, hr⟩ := post_build_log_trace ext (post_analyze ext w (baseArgs b)).2.1 b
        outResp (post_analyze ext w (baseArgs b)).1.1 (evs ++ (post_analyze ext w (baseArgs b)).2.2)
      exact ⟨(post_analyze ext w (baseArgs b)).2.2 ++ rest, by rw [hr, List.append_assoc]⟩
  · exact post_build_log_trace ext w b outResp emptyObj evs

theorem post_analyze_trace_head (ext : ExtSvc) (w : World) (a : AnalyzeArgs) :
    Event.metadataFetch a.image a.registry_user a.registry_password ∈ (post_analyze ext w a).2.2 := by
  unfold post_analyze
  cases hm : ext.imageMetadata a.image a.registry_user a.registry_password a.verify_tls with
  | err resp code => simp
  | ok dg =>
      cases a.force
      · rcases hc : w.analysesCache (analyzeCacheKey dg a) with _ | aid <;> simp [hc, _do_schedule]
      · simp [_do_schedule]

theorem post_analyze_trace_shape (ext : ExtSvc) (w : World) (a : AnalyzeArgs) :
    ∀ ev ∈ (post_analyze ext w a).2.2,
      ev = Event.metadataFetch a.image a.registry_user a.registry_password ∨
      (∃ k, ev = Event.cacheGet StoreName.analysesCache k) ∨
      ev = Event.dispatch SchedKind.packageExtract (analyzeParameters a) ∨
      ev = Event.storeDoc StoreName.analysisByDigest ∨
      (∃ k, ev = Event.cachePut StoreName.analysesCache k) := by
  intro ev hev
  unfold post_analyze at hev
  cases hm : ext.imageMetadata a.image a.registry_user a.registry_password a.verify_tls with
  | err resp code =>
      rw [hm] at hev
      simp at hev
      exact Or.inl hev
  | ok dg =>
      simp only [hm] at hev
      cases hf : a.force with
      | false =>
          simp only [hf] at hev
          rcases hc : w.analysesCache (analyzeCacheKey dg a) with _ | aid <;>
            simp [hc, _do_schedule] at hev <;> aesop
      | true =>
          simp [hf, _do_schedule] at hev
          aesop

theorem post_buildlog_trace_shape (ext : ExtSvc) (w : World) (log_info : Value)
    (force : Bool) :
    ∀ ev ∈ (post_buildlog_analyze ext w log_info force).2.2,
      (∃ k, ev = Event.cacheGet StoreName.buildLogsAnalysesCache k) ∨
      ev = Event.storeDoc StoreName.buildLogs ∨
      (∃ ps, ev = Event.dispatch SchedKind.buildAnalyze ps) ∨
      (∃ k, ev = Event.cachePut StoreName.buildLogsAnalysesCache k) := by
  intro ev hev
  unfold post_buildlog_analyze at hev
  cases force with
  | false =>
      rcases hc : w.buildLogsAnalysesCache (_compute_digest_params (buildlogParams log_info
        false)) with _ | aid <;> simp [hc, _do_schedule] at hev <;> aesop
  | true =>
      simp [_do_schedule] at hev
      aesop

theorem post_build_log_events (ext : ExtSvc) (w : World) (b : BuildArgs)
    (outResp baseResp : Value) (evs : List Event) :
    ∀ ev ∈ (post_build_log ext w b outResp baseResp evs).2.2,
      ev ∈ evs ∨ (∃ li, ev ∈ (post_buildlog_analyze ext w li b.force).2.2) := by
  intro ev hev
  unfold post_build_log at hev
  by_cases h : truthy (lookupArg b.build_detail "build_log") <;> simp [h] at hev
  · rcases hev with h1 | h1
    · exact Or.inl h1
    · exact Or.inr ⟨_, h1⟩
  · exact Or.inl hev

theorem post_build_base_events (ext : ExtSvc) (w : World) (b : BuildArgs)
    (outResp : Value) (evs : List Event) :
    ∀ ev ∈ (post_build_base ext w b outResp evs).2.2,
      ev ∈ evs ∨ (∃ w', ev ∈ (post_analyze ext w' (baseArgs b)).2.2) ∨
      (∃ w' li, ev ∈ (post_buildlog_analyze ext w' li b.force).2.2) := by
  intro ev hev
  unfold post_build_base at hev
  by_cases h : truthy (lookupArg b.build_detail "base_image") <;> simp [h] at hev
  · by_cases hs : (post_analyze ext w (baseArgs b)).1.2 = 202 <;> simp [hs] at hev
    · rcases post_build_log_events ext (post_analyze ext w (baseArgs b)).2.1 b outResp
        (post_analyze ext w (baseArgs b)).1.1 _ ev hev with h1 | ⟨li, h1⟩
      · rcases List.mem_append.mp h1 with h2 | h2
        · exact Or.inl h2
        · exact Or.inr (Or.inl ⟨w, h2⟩)
      · exact Or.inr (Or.inr ⟨_, li, h1⟩)
    · rcases hev with h2 | h2
      · exact Or.inl h2
      · exact Or.inr (Or.inl ⟨w, h2⟩)
  · rcases post_build_log_events ext w b outResp emptyObj evs ev hev with h1 | ⟨li, h1⟩
    · exact Or.inl h1
    · exact Or.inr (Or.inr ⟨w, li, h1⟩)

theorem post_build_trace_events (ext : ExtSvc) (w : World) (b : BuildArgs) :
    ∀ ev ∈ (post_build ext w b).2.2,
      ev ∈ (post_analyze ext w (outArgs b)).2.2 ∨
      (∃ w', ev ∈ (post_analyze ext w' (baseArgs b)).2.2) ∨
      (∃ w' li, ev ∈ (post_buildlog_analyze ext w' li b.force).2.2) := by
  intro ev hev
  unfold post_build at hev
  by_cases hall : truthy (lookupArg b.build_detail "output_image") = false ∧
      truthy (lookupArg b.build_detail "base_image") = false ∧
      truthy (lookupArg b.build_detail "build_log") = false
  · simp [hall] at hev
  · rw [if_neg hall] at hev
    by_cases ho : truthy (lookupArg b.build_detail "output_image") <;> simp [ho] at hev
    · by_cases hs : (post_analyze ext w (outArgs b)).1.2 = 202 <;> simp [hs] at hev
      · rcases post_build_base_events ext (post_analyze ext w (outArgs b)).2.1 b
          (post_analyze ext w (outArgs b)).1.1 _ ev hev with h1 | h1 | h1
        · exact Or.inl h1
        · exact Or.inr (Or.inl h1)
        · exact Or.inr (Or.inr h1)
      · exact Or.inl hev
    · rcases post_build_base_events ext w b emptyObj [] ev hev with h1 | h1 | h1
      · simp at h1
      · exact Or.inr (Or.inl h1)
      · exact Or.inr (Or.inr h1)

/-- Claim C7: the composite build orchestrator runs output-image
analysis, then base-image analysis, then build-log analysis, each only
when its key is truthy in the payload; it short-circuits with the
failing sub-response and status as soon as a sub-operation returns a
status other than 202 — shown for a failing output analysis, for a
failing base analysis on a base-only payload, and for a failing base
analysis after a succeeding (202) output analysis on a both-images
payload; a payload with none of output_image, base_image, build_log
yields 400 "no information provided" with no external call and no
state change; and when all three run, the trace is the concatenation
of the three sub-traces in that fixed order. -/
theorem C7_composite_build_short_circuit :
    ∀ (ext : ExtSvc) (w : World) (b : BuildArgs),
      (truthy (lookupArg b.build_detail "output_image") = false →
       truthy (lookupArg b.build_detail "base_image") = false →
       truthy (lookupArg b.build_detail "build_log") = false →
       post_build ext w b =
         ((Value.obj [("error", Value.str "Bad Request! No information provided")], 400), w, [])) ∧
      (truthy (lookupArg b.build_detail "output_image") = true →
       (post_analyze ext w (outArgs b)).1.2 ≠ 202 →
       post_build ext w b =
         ((mkBuildResp emptyObj (post_analyze ext w (outArgs b)).1.1 emptyObj,
           (post_analyze ext w (outArgs b)).1.2),
          (post_analyze ext w (outArgs b)).2.1, (post_analyze ext w (outArgs b)).2.2)) ∧
      (truthy (lookupArg b.build_detail "output_image") = false →
       truthy (lookupArg b.build_detail "base_image") = true →
       (post_analyze ext w (baseArgs b)).1.2 ≠ 202 →
       post_build ext w b =
         ((mkBuildResp (post_analyze ext w (baseArgs b)).1.1 emptyObj emptyObj,
           (post_analyze ext w (baseArgs b)).1.2),
          (post_analyze ext w (baseArgs b)).2.1, (post_analyze ext w (baseArgs b)).2.2)) ∧
      (truthy (lookupArg b.build_detail "output_image") = true →
       truthy (lookupArg b.build_detail "base_image") = true →
       truthy (lookupArg b.build_detail "build_log") = true →
       (post_analyze ext w (outArgs b)).1.2 = 202 →
       (post_analyze ext ((post_analyze ext w (outArgs b)).2.1) (baseArgs b)).1.2 = 202 →
       post_build ext w b =
         ((mkBuildResp
            (post_analyze ext ((post_analyze ext w (outArgs b)).2.1) (baseArgs b)).1.1
            (post_analyze ext w (outArgs b)).1.1
            (post_buildlog_analyze ext
              (post_analyze ext ((post_analyze ext w (outArgs b)).2.1) (baseArgs b)).2.1
              (Value.obj (objSet
                (objSet b.build_detail "output_image_analysis_id"
                  (optGetNull (post_analyze ext w (outArgs b)).1.1 "analysis_id"))
                "base_image_analysis_id"
                (optGetNull
                  (post_analyze ext ((post_analyze ext w (outArgs b)).2.1) (baseArgs b)).1.1
                  "analysis_id")))
              b.force).1.1,
           202),
          (post_buildlog_analyze ext
            (post_analyze ext ((post_analyze ext w (outArgs b)).2.1) (baseArgs b)).2.1
            (Value.obj (objSet
              (objSet b.build_detail "output_image_analysis_id"
                (optGetNull (post_analyze ext w (outArgs b)).1.1 "analysis_id"))
              "base_image_analysis_id"
              (optGetNull
                (post_analyze ext ((post_analyze ext w (outArgs b)).2.1) (baseArgs b)).1.1
                "analysis_id")))
            b.force).2.1,
          ((post_analyze ext w (outArgs b)).2.2 ++
           (post_analyze ext ((post_analyze ext w (outArgs b)).2.1) (baseArgs b)).2.2) ++
          (post_buildlog_analyze ext
            (post_analyze ext ((post_analyze ext w (outArgs b)).2.1) (baseArgs b)).2.1
            (Value.obj (objSet
              (objSet b.build_detail "output_image_analysis_id"
                (optGetNull (post_analyze ext w (outArgs b)).1.1 "analysis_id"))
              "base_image_analysis_id"
              (optGetNull
                (post_analyze ext ((post_analyze ext w (outArgs b)).2.1) (baseArgs b)).1.1
                "analysis_id")))
            b.force).2.2)) ∧
      (truthy (lookupArg b.build_detail "output_image") = true →
       truthy (lookupArg b.build_detail "base_image") = true →
       (post_analyze ext w (outArgs b)).1.2 = 202 →
       (post_analyze ext ((post_analyze ext w (outArgs b)).2.1) (baseArgs b)).1.2 ≠ 202 →
       post_build ext w b =
         ((mkBuildResp
             (post_analyze ext ((post_analyze ext w (outArgs b)).2.1) (baseArgs b)).1.1
             (post_analyze ext w (outArgs b)).1.1 emptyObj,
           (post_analyze ext ((post_analyze ext w (outArgs b)).2.1) (baseArgs b)).1.2),
          (post_analyze ext ((post_analyze ext w (outArgs b)).2.1) (baseArgs b)).2.1,
          (post_analyze ext w (outArgs b)).2.2 ++
            (post_analyze ext ((post_analyze ext w (outArgs b)).2.1) (baseArgs b)).2.2)) := by
  intro ext w b
  refine ⟨?_, ?_, ?_, ?_, ?_⟩
  · intro h1 h2 h3
    simp [post_build, h1, h2, h3]
  · intro h1 hne
    simp [post_build, h1, hne]
  · intro h1 h2 hne
    simp [post_build, post_build_base, h1, h2, hne]
  · intro h1 h2 h3 hs1 hs2
    simp [post_build, post_build_base, post_build_log, h1, h2, h3, hs1, hs2,
          post_buildlog_analyze_status]
  · intro h1 h2 hs1 hne
    simp [post_build, post_build_base, h1, h2, hs1, hne]

/-- An empty initial world: all caches empty, counters zero. -/
def W0 : World :=
  { analysesCache := fun _ => none, provenanceCache := fun _ => none,
    advisersCache := fun _ => none, buildLogsAnalysesCache := fun _ => none,
    analysisByDigest := fun _ => none, schedCount := 0, buildLogCount := 0 }

/-- Sample collaborators whose registry rejects the image with 400. -/
def extFail : ExtSvc :=
  { schedId := fun _ _ => "package-extract-000",
    imageMetadata := fun _ _ _ _ => MetaResult.err (Value.obj []) 400,
    indexUrls := [], parseProjectProv := fun _ => ParseOutcome.otherError,
    parseProjectAdv := fun _ _ => ParseOutcome.otherError,
    buildLogDocId := fun _ => "bldoc-000" }

/-- Sample collaborators for which every external call succeeds. -/
def extOk : ExtSvc :=
  { schedId := fun _ _ => "package-extract-000",
    imageMetadata := fun _ _ _ _ => MetaResult.ok "sha256:aaa",
    indexUrls := ["https://pypi.org/simple"],
    parseProjectProv := fun _ => ParseOutcome.ok [("requirements", Value.str "r")],
    parseProjectAdv := fun _ _ => ParseOutcome.ok [("requirements", Value.str "r")],
    buildLogDocId := fun _ => "bldoc-000" }

/-- A build request with an empty payload. -/
def buildNone : BuildArgs :=
  { build_detail := [], debug := false, registry_user := none, registry_password := none,
    environment_type := none, origin := none, registry_verify_tls := true, force := false }

/-- A build request with only the output image set, with credentials. -/
def buildOutOnly : BuildArgs :=
  { buildNone with build_detail := [("output_image", Value.str "quay.io/thoth/demo")],
                   registry_user := some "user1", registry_password := some "s3cret" }

/-- A build request with only the base image set, with credentials. -/
def buildBaseOnly : BuildArgs :=
  { buildNone with build_detail := [("base_image", Value.str "fedora:31")],
                   registry_user := some "user1", registry_password := some "s3cret" }

/-- A build request with both images set, with credentials. -/
def buildBoth : BuildArgs :=
  { buildNone with build_detail := [("output_image", Value.str "quay.io/thoth/demo"),
                                    ("base_image", Value.str "fedora:31")],
                   registry_user := some "user1", registry_password := some "s3cret" }

/-- The both-images build request with force set. -/
def buildBothF : BuildArgs := { buildBoth with force := true }

/-- Sample collaborators whose registry serves the output image but
rejects the base image with 401. -/
def extMixed : ExtSvc :=
  { schedId := fun _ _ => "package-extract-000",
    imageMetadata := fun img _ _ _ =>
      if img = "fedora:31" then MetaResult.err (Value.obj []) 401
      else MetaResult.ok "sha256:aaa",
    indexUrls := ["https://pypi.org/simple"],
    parseProjectProv := fun _ => ParseOutcome.ok [("requirements", Value.str "r")],
    parseProjectAdv := fun _ _ => ParseOutcome.ok [("requirements", Value.str "r")],
    buildLogDocId := fun _ => "bldoc-000" }

/-- Witness for C7: an empty payload gives the 400 with no calls, a
failing output-image analysis short-circuits the composite, and with
both images set a succeeding output analysis followed by a failing
base analysis short-circuits with the base status. -/
theorem C7_composite_build_short_circuit_witness :
    truthy (lookupArg buildNone.build_detail "output_image") = false ∧
    truthy (lookupArg buildNone.build_detail "base_image") = false ∧
    truthy (lookupArg buildNone.build_detail "build_log") = false ∧
    post_build extFail W0 buildNone =
      ((Value.obj [("error", Value.str "Bad Request! No information provided")], 400), W0, []) ∧
    truthy (lookupArg buildOutOnly.build_detail "output_image") = true ∧
    (post_analyze extFail W0 (outArgs buildOutOnly)).1.2 ≠ 202 ∧
    post_build extFail W0 buildOutOnly =
      ((mkBuildResp emptyObj (post_analyze extFail W0 (outArgs buildOutOnly)).1.1 emptyObj,
        (post_analyze extFail W0 (outArgs buildOutOnly)).1.2),
       (post_analyze extFail W0 (outArgs buildOutOnly)).2.1,
       (post_analyze extFail W0 (outArgs buildOutOnly)).2.2) ∧
    truthy (lookupArg buildBoth.build_detail "output_image") = true ∧
    truthy (lookupArg buildBoth.build_detail "base_image") = true ∧
    (post_analyze extMixed W0 (outArgs buildBoth)).1.2 = 202 ∧
    (post_analyze extMixed ((post_analyze extMixed W0 (outArgs buildBoth)).2.1)
      (baseArgs buildBoth)).1.2 ≠ 202 ∧
    post_build extMixed W0 buildBoth =
      ((mkBuildResp
          (post_analyze extMixed ((post_analyze extMixed W0 (outArgs buildBoth)).2.1)
            (baseArgs buildBoth)).1.1
          (post_analyze extMixed W0 (outArgs buildBoth)).1.1 emptyObj,
        (post_analyze extMixed ((post_analyze extMixed W0 (outArgs buildBoth)).2.1)
          (baseArgs buildBoth)).1.2),
       (post_analyze extMixed ((post_analyze extMixed W0 (outArgs buildBoth)).2.1)
         (baseArgs buildBoth)).2.1,
       (post_analyze extMixed W0 (outArgs buildBoth)).2.2 ++
         (post_analyze extMixed ((post_analyze extMixed W0 (outArgs buildBoth)).2.1)
           (baseArgs buildBoth)).2.2) :=
  ⟨by decide, by decide, by decide,
   (C7_composite_build_short_circuit extFail W0 buildNone).1 (by decide) (by decide) (by decide),
   by decide, by decide,
   (C7_composite_build_short_circuit extFail W0 buildOutOnly).2.1 (by decide) (by decide),
   by decide, by decide, by decide, by decide,
   (C7_composite_build_short_circuit extMixed W0 buildBoth).2.2.2.2 (by decide) (by decide)
     (by decide) (by decide)⟩

theorem post_build_base_only_trace (ext : ExtSvc) (w : World) (b : BuildArgs)
    (ho : truthy (lookupArg b.build_detail "output_image") = false)
    (hb : truthy (lookupArg b.build_detail "base_image") = true)
    (hl : truthy (lookupArg b.build_detail "build_log") = false) :
    (post_build ext w b).2.2 = (post_analyze ext w (baseArgs b)).2.2 := by
  simp only [post_build, ho, hb, hl]
  simp only [post_build_base, post_build_log, hb, hl]
  by_cases hs : (post_analyze ext w (baseArgs b)).1.2 = 202 <;> simp [hs, hl]

/-- Claim C10: for every composite build payload in which base_image
is set — including payloads that also carry output_image and
build_log — the base-image analysis is invoked with no registry
credentials while only the output-image analysis receives the
caller's: in any composite build, every registry metadata fetch in
the trace either is the output-image fetch carrying the caller's
credentials or carries none, and every package-extract dispatch
either is the output-image dispatch or carries null registry_user and
registry_password; when both images are set and the output analysis
succeeds, the base sub-operation is the credential-free analysis,
whose trace (all fetches credential-free, all dispatches null-creds)
is embedded in the composite trace right after the output trace; for
a base-only payload every fetch and dispatch is credential-free; and
whenever output_image is truthy its metadata fetch carries the
caller's credentials. -/
theorem C10_base_image_analysis_without_credentials :
    ∀ (ext : ExtSvc) (w : World) (b : BuildArgs),
      ((∀ img u p, Event.metadataFetch img u p ∈ (post_build ext w b).2.2 →
          (img = (outArgs b).image ∧ u = b.registry_user ∧ p = b.registry_password) ∨
          (u = none ∧ p = none)) ∧
       (∀ ps, Event.dispatch SchedKind.packageExtract ps ∈ (post_build ext w b).2.2 →
          ps = analyzeParameters (outArgs b) ∨
          (lookupArg ps "registry_user" = some Value.null ∧
           lookupArg ps "registry_password" = some Value.null))) ∧
      (truthy (lookupArg b.build_detail "output_image") = true →
       truthy (lookupArg b.build_detail "base_image") = true →
       (post_analyze ext w (outArgs b)).1.2 = 202 →
       (∀ img u p, Event.metadataFetch img u p ∈
            (post_analyze ext ((post_analyze ext w (outArgs b)).2.1) (baseArgs b)).2.2 →
          u = none ∧ p = none) ∧
       (∀ ps, Event.dispatch SchedKind.packageExtract ps ∈
            (post_analyze ext ((post_analyze ext w (outArgs b)).2.1) (baseArgs b)).2.2 →
          lookupArg ps "registry_user" = some Value.null ∧
          lookupArg ps "registry_password" = some Value.null) ∧
       (∃ rest, (post_build ext w b).2.2 =
          (post_analyze ext w (outArgs b)).2.2 ++
            ((post_analyze ext ((post_analyze ext w (outArgs b)).2.1) (baseArgs b)).2.2 ++
              rest))) ∧
      (truthy (lookupArg b.build_detail "base_image") = true →
       truthy (lookupArg b.build_detail "output_image") = false →
       truthy (lookupArg b.build_detail "build_log") = false →
       (∀ img u p, Event.metadataFetch img u p ∈ (post_build ext w b).2.2 →
          u = none ∧ p = none) ∧
       (∀ ps, Event.dispatch SchedKind.packageExtract ps ∈ (post_build ext w b).2.2 →
          lookupArg ps "registry_user" = some Value.null ∧
          lookupArg ps "registry_password" = some Value.null)) ∧
      (truthy (lookupArg b.build_detail "output_image") = true →
       Event.metadataFetch (outArgs b).image b.registry_user b.registry_password ∈
         (post_build ext w b).2.2) := by
  intro ext w b
  refine ⟨⟨?_, ?_⟩, ?_, ?_, ?_⟩
  · intro img u p hmem
    rcases post_build_trace_events ext w b _ hmem with h | ⟨w', h⟩ | ⟨w', li, h⟩
    · rcases post_analyze_trace_shape ext w (outArgs b) _ h with
        h1 | ⟨k, h1⟩ | h1 | h1 | ⟨k, h1⟩
      · simp only [Event.metadataFetch.injEq] at h1
        exact Or.inl h1
      · exact absurd h1 (by simp)
      · exact absurd h1 (by simp)
      · exact absurd h1 (by simp)
      · exact absurd h1 (by simp)
    · rcases post_analyze_trace_shape ext w' (baseArgs b) _ h with
        h1 | ⟨k, h1⟩ | h1 | h1 | ⟨k, h1⟩
      · simp only [Event.metadataFetch.injEq] at h1
        exact Or.inr h1.2
      · exact absurd h1 (by simp)
      · exact absurd h1 (by simp)
      · exact absurd h1 (by simp)
      · exact absurd h1 (by simp)
    · rcases post_buildlog_trace_shape ext w' li b.force _ h with
        ⟨k, h1⟩ | h1 | ⟨ps, h1⟩ | ⟨k, h1⟩
      · exact absurd h1 (by simp)
      · exact absurd h1 (by simp)
      · exact absurd h1 (by simp)
      · exact absurd h1 (by simp)
  · intro ps hmem
    rcases post_build_trace_events ext w b _ hmem with h | ⟨w', h⟩ | ⟨w', li, h⟩
    · rcases post_analyze_trace_shape ext w (outArgs b) _ h with
        h1 | ⟨k, h1⟩ | h1 | h1 | ⟨k, h1⟩
      · exact absurd h1 (by simp)
      · exact absurd h1 (by simp)
      · simp only [Event.dispatch.injEq, true_and] at h1
        exact Or.inl h1
      · exact absurd h1 (by simp)
      · exact absurd h1 (by simp)
    · rcases post_analyze_trace_shape ext w' (baseArgs b) _ h with
        h1 | ⟨k, h1⟩ | h1 | h1 | ⟨k, h1⟩
      · exact absurd h1 (by simp)
      · exact absurd h1 (by simp)
      · simp only [Event.dispatch.injEq, true_and] at h1
        subst h1
        exact Or.inr (by simp [analyzeParameters, baseArgs, lookupArg, optVal])
      · exact absurd h1 (by simp)
      · exact absurd h1 (by simp)
    · rcases post_buildlog_trace_shape ext w' li b.force _ h with
        ⟨k, h1⟩ | h1 | ⟨ps', h1⟩ | ⟨k, h1⟩
      · exact absurd h1 (by simp)
      · exact absurd h1 (by simp)
      · exact absurd h1 (by simp)
      · exact absurd h1 (by simp)
  · intro ho hb hs
    refine ⟨?_, ?_, ?_⟩
    · intro img u p hmem
      rcases post_analyze_trace_shape ext ((post_analyze ext w (outArgs b)).2.1) (baseArgs b)
          _ hmem with h1 | ⟨k, h1⟩ | h1 | h1 | ⟨k, h1⟩
      · simp only [Event.metadataFetch.injEq] at h1
        exact h1.2
      · exact absurd h1 (by simp)
      · exact absurd h1 (by simp)
      · exact absurd h1 (by simp)
      · exact absurd h1 (by simp)
    · intro ps hmem
      rcases post_analyze_trace_shape ext ((post_analyze ext w (outArgs b)).2.1) (baseArgs b)
          _ hmem with h1 | ⟨k, h1⟩ | h1 | h1 | ⟨k, h1⟩
      · exact absurd h1 (by simp)
      · exact absurd h1 (by simp)
      · simp only [Event.dispatch.injEq, true_and] at h1
        subst h1
        simp [analyzeParameters, baseArgs, lookupArg, optVal]
      · exact absurd h1 (by simp)
      · exact absurd h1 (by simp)
    · have h1 : post_build ext w b =
          post_build_base ext (post_analyze ext w (outArgs b)).2.1 b
            (post_analyze ext w (outArgs b)).1.1 (post_analyze ext w (outArgs b)).2.2 := by
        simp [post_build, ho, hs]
      rw [h1]
      unfold post_build_base
      rw [if_pos hb]
      by_cases hsb : (post_analyze ext ((post_analyze ext w (outArgs b)).2.1)
          (baseArgs b)).1.2 = 202 <;> simp only [hsb, if_pos, if_neg, ite_true, ite_false]
      · obtain ⟨rest, hr⟩ := post_build_log_trace ext
          (post_analyze ext ((post_analyze ext w (outArgs b)).2.1) (baseArgs b)).2.1 b
          (post_analyze ext w (outArgs b)).1.1
          (post_analyze ext ((post_analyze ext w (outArgs b)).2.1) (baseArgs b)).1.1
          ((post_analyze ext w (outArgs b)).2.2 ++
            (post_analyze ext ((post_analyze ext w (outArgs b)).2.1) (baseArgs b)).2.2)
        exact ⟨rest, by rw [hr, List.append_assoc]⟩
      · exact ⟨[], by simp⟩
  · intro hb ho hl
    constructor
    · intro img u p hmem
      rw [post_build_base_only_trace ext w b ho hb hl] at hmem
      rcases post_analyze_trace_shape ext w (baseArgs b) _ hmem with
        h | ⟨k, h⟩ | h | h | ⟨k, h⟩ <;> simp [baseArgs] at h
      exact ⟨h.2.1, h.2.2⟩
    · intro ps hmem
      rw [post_build_base_only_trace ext w b ho hb hl] at hmem
      rcases post_analyze_trace_shape ext w (baseArgs b) _ hmem with
        h | ⟨k, h⟩ | h | h | ⟨k, h⟩ <;> simp at h
      subst h
      simp [analyzeParameters, baseArgs, lookupArg, optVal]
  · intro ho
    have hhead := post_analyze_trace_head ext w (outArgs b)
    by_cases hs : (post_analyze ext w (outArgs b)).1.2 = 202
    · obtain ⟨rest, hr⟩ := post_build_base_trace ext (post_analyze ext w (outArgs b)).2.1 b
        (post_analyze ext w (outArgs b)).1.1 (post_analyze ext w (outArgs b)).2.2
      have htr : (post_build ext w b).2.2 =
          (post_build_base ext (post_analyze ext w (outArgs b)).2.1 b
            (post_analyze ext w (outArgs b)).1.1 (post_analyze ext w (outArgs b)).2.2).2.2 := by
        simp [post_build, ho, hs]
      rw [htr, hr]
      exact List.mem_append_left _ hhead
    · have htr : (post_build ext w b).2.2 = (post_analyze ext w (outArgs b)).2.2 := by
        simp [post_build, ho, hs]
      rw [htr]
      exact hhead

/-- Witness for C10: the base-only build with caller credentials
dispatches a package-extract job whose parameters carry null
credentials; the both-images forced build runs its base analysis
credential-free with a null-credential dispatch even though the
caller supplied credentials; and the output-only build fetches
metadata with the caller's credentials. -/
theorem C10_base_image_analysis_without_credentials_witness :
    truthy (lookupArg buildBaseOnly.build_detail "base_image") = true ∧
    truthy (lookupArg buildBaseOnly.build_detail "output_image") = false ∧
    truthy (lookupArg buildBaseOnly.build_detail "build_log") = false ∧
    buildBaseOnly.registry_password = some "s3cret" ∧
    Event.dispatch SchedKind.packageExtract (analyzeParameters (baseArgs buildBaseOnly)) ∈
      (post_build extOk W0 buildBaseOnly).2.2 ∧
    (lookupArg (analyzeParameters (baseArgs buildBaseOnly)) "registry_user" = some Value.null ∧
     lookupArg (analyzeParameters (baseArgs buildBaseOnly)) "registry_password" =
       some Value.null) ∧
    truthy (lookupArg buildBothF.build_detail "output_image") = true ∧
    truthy (lookupArg buildBothF.build_detail "base_image") = true ∧
    buildBothF.registry_password = some "s3cret" ∧
    (post_analyze extOk W0 (outArgs buildBothF)).1.2 = 202 ∧
    Event.dispatch SchedKind.packageExtract (analyzeParameters (baseArgs buildBothF)) ∈
      (post_analyze extOk ((post_analyze extOk W0 (outArgs buildBothF)).2.1)
        (baseArgs buildBothF)).2.2 ∧
    (lookupArg (analyzeParameters (baseArgs buildBothF)) "registry_user" = some Value.null ∧
     lookupArg (analyzeParameters (baseArgs buildBothF)) "registry_password" =
       some Value.null) ∧
    truthy (lookupArg buildOutOnly.build_detail "output_image") = true ∧
    Event.metadataFetch (outArgs buildOutOnly).image buildOutOnly.registry_user
      buildOutOnly.registry_password ∈ (post_build extFail W0 buildOutOnly).2.2 :=
  have htr : (post_build extOk W0 buildBaseOnly).2.2 =
      [Event.metadataFetch "fedora:31" none none,
       Event.cacheGet StoreName.analysesCache (analyzeCacheKey "sha256:aaa"
         (baseArgs buildBaseOnly)),
       Event.dispatch SchedKind.packageExtract (analyzeParameters (baseArgs buildBaseOnly)),
       Event.storeDoc StoreName.analysisByDigest,
       Event.cachePut StoreName.analysesCache (analyzeCacheKey "sha256:aaa"
         (baseArgs buildBaseOnly))] :=
    rfl
  have hmem : Event.dispatch SchedKind.packageExtract
      (analyzeParameters (baseArgs buildBaseOnly)) ∈ (post_build extOk W0 buildBaseOnly).2.2 := by
    rw [htr]
    exact List.mem_cons_of_mem _ (List.mem_cons_of_mem _ (List.mem_cons_self _ _))
  have htr2 : (post_analyze extOk ((post_analyze extOk W0 (outArgs buildBothF)).2.1)
      (baseArgs buildBothF)).2.2 =
      [Event.metadataFetch "fedora:31" none none,
       Event.dispatch SchedKind.packageExtract (analyzeParameters (baseArgs buildBothF)),
       Event.storeDoc StoreName.analysisByDigest,
       Event.cachePut StoreName.analysesCache (analyzeCacheKey "sha256:aaa"
         (baseArgs buildBothF))] :=
    rfl
  have hmem2 : Event.dispatch SchedKind.packageExtract
      (analyzeParameters (baseArgs buildBothF)) ∈
      (post_analyze extOk ((post_analyze extOk W0 (outArgs buildBothF)).2.1)
        (baseArgs buildBothF)).2.2 := by
    rw [htr2]
    exact List.mem_cons_of_mem _ (List.mem_cons_self _ _)
  ⟨by decide, by decide, by decide, rfl, hmem,
   ((C10_base_image_analysis_without_credentials extOk W0 buildBaseOnly).2.2.1
      (by decide) (by decide) (by decide)).2 _ hmem,
   by decide, by decide, rfl, by decide, hmem2,
   ((C10_base_image_analysis_without_credentials extOk W0 buildBothF).2.1
      (by decide) (by decide) (by decide)).2.1 _ hmem2,
   by decide,
   (C10_base_image_analysis_without_credentials extFail W0 buildOutOnly).2.2.2 (by decide)⟩

/-- The response _do_schedule builds for a package-extract dispatch of
the given parameters at a given dispatch count. -/
def schedResp (ext : ExtSvc) (kind : SchedKind) (n : Nat)
    (parameters : List (String × Value)) : Value :=
  Value.obj [("analysis_id", Value.str (ext.schedId kind n)),
             ("parameters", Value.obj parameters), ("cached", Value.bool false)]

/-- The cached-hit response shared by the orchestrators. -/
def cachedResp (aid : String) (parameters : List (String × Value)) : Value :=
  Value.obj [("analysis_id", Value.str aid), ("cached", Value.bool true),
             ("parameters", Value.obj parameters)]

theorem post_analyze_dispatch_miss (ext : ExtSvc) (w : World) (a : AnalyzeArgs) (dg : String)
    (hm : ext.imageMetadata a.image a.registry_user a.registry_password a.verify_tls =
      MetaResult.ok dg)
    (hf : a.force = false)
    (hc : w.analysesCache (analyzeCacheKey dg a) = none) :
    post_analyze ext w a =
      ((schedResp ext SchedKind.packageExtract w.schedCount (analyzeParameters a), 202),
       { w with schedCount := w.schedCount + 1,
                analysisByDigest := upd w.analysisByDigest dg
                  (schedResp ext SchedKind.packageExtract w.schedCount (analyzeParameters a)),
                analysesCache := upd w.analysesCache (analyzeCacheKey dg a)
                  (ext.schedId SchedKind.packageExtract w.schedCount) },
       [Event.metadataFetch a.image a.registry_user a.registry_password,
        Event.cacheGet StoreName.analysesCache (analyzeCacheKey dg a),
        Event.dispatch SchedKind.packageExtract (analyzeParameters a),
        Event.storeDoc StoreName.analysisByDigest,
        Event.cachePut StoreName.analysesCache (analyzeCacheKey dg a)]) := by
  simp [post_analyze, hm, hf, hc, _do_schedule, getAnalysisId, lookupVal, lookupArg, schedResp]

theorem post_analyze_dispatch_forced (ext : ExtSvc) (w : World) (a : AnalyzeArgs) (dg : String)
    (hm : ext.imageMetadata a.image a.registry_user a.registry_password a.verify_tls =
      MetaResult.ok dg)
    (hf : a.force = true) :
    post_analyze ext w a =
      ((schedResp ext SchedKind.packageExtract w.schedCount (analyzeParameters a), 202),
       { w with schedCount := w.schedCount + 1,
                analysisByDigest := upd w.analysisByDigest dg
                  (schedResp ext SchedKind.packageExtract w.schedCount (analyzeParameters a)),
                analysesCache := upd w.analysesCache (analyzeCacheKey dg a)
                  (ext.schedId SchedKind.packageExtract w.schedCount) },
       [Event.metadataFetch a.image a.registry_user a.registry_password,
        Event.dispatch SchedKind.packageExtract (analyzeParameters a),
        Event.storeDoc StoreName.analysisByDigest,
        Event.cachePut StoreName.analysesCache (analyzeCacheKey dg a)]) := by
  simp [post_analyze, hm, hf, _do_schedule, getAnalysisId, lookupVal, lookupArg, schedResp]

theorem post_analyze_cached_hit (ext : ExtSvc) (w : World) (a : AnalyzeArgs) (dg aid : String)
    (hm : ext.imageMetadata a.image a.registry_user a.registry_password a.verify_tls =
      MetaResult.ok dg)
    (hf : a.force = false)
    (hc : w.analysesCache (analyzeCacheKey dg a) = some aid) :
    post_analyze ext w a =
      ((cachedResp aid (analyzeParameters a), 202), w,
       [Event.metadataFetch a.image a.registry_user a.registry_password,
        Event.cacheGet StoreName.analysesCache (analyzeCacheKey dg a)]) := by
  simp [post_analyze, hm, hf, hc, cachedResp]

theorem post_provenance_dispatch_miss (ext : ExtSvc) (w : World) (now ttl : Nat) (a : ProvArgs)
    (pd : List (String × Value))
    (hp : ext.parseProjectProv a.application_stack = ParseOutcome.ok pd)
    (hf : a.force = false)
    (hc : w.provenanceCache (provCacheKey pd a ext.indexUrls) = none) :
    post_provenance_python ext w now ttl a =
      ((schedResp ext SchedKind.provenanceChecker w.schedCount (provParams a ext.indexUrls), 202),
       { w with schedCount := w.schedCount + 1,
                provenanceCache := upd w.provenanceCache (provCacheKey pd a ext.indexUrls)
                  (ext.schedId SchedKind.provenanceChecker w.schedCount, now) },
       [Event.graphIndexUrls,
        Event.cacheGet StoreName.provenanceCache (provCacheKey pd a ext.indexUrls),
        Event.dispatch SchedKind.provenanceChecker (provParams a ext.indexUrls),
        Event.cachePut StoreName.provenanceCache (provCacheKey pd a ext.indexUrls)]) := by
  simp [post_provenance_python, hp, hf, hc, provSchedule, _do_schedule, getAnalysisId,
        lookupVal, lookupArg, schedResp]

theorem post_provenance_dispatch_expired (ext : ExtSvc) (w : World) (now ttl : Nat) (a : ProvArgs)
    (pd : List (String × Value)) (aid : String) (ts : Nat)
    (hp : ext.parseProjectProv a.application_stack = ParseOutcome.ok pd)
    (hf : a.force = false)
    (hc : w.provenanceCache (provCacheKey pd a ext.indexUrls) = some (aid, ts))
    (hts : ts + ttl ≤ now) :
    post_provenance_python ext w now ttl a =
      ((schedResp ext SchedKind.provenanceChecker w.schedCount (provParams a ext.indexUrls), 202),
       { w with schedCount := w.schedCount + 1,
                provenanceCache := upd w.provenanceCache (provCacheKey pd a ext.indexUrls)
                  (ext.schedId SchedKind.provenanceChecker w.schedCount, now) },
       [Event.graphIndexUrls,
        Event.cacheGet StoreName.provenanceCache (provCacheKey pd a ext.indexUrls),
        Event.dispatch SchedKind.provenanceChecker (provParams a ext.indexUrls),
        Event.cachePut StoreName.provenanceCache (provCacheKey pd a ext.indexUrls)]) := by
  have hlt : ¬ ts + ttl > now := by omega
  simp [post_provenance_python, hp, hf, hc, hlt, provSchedule, _do_schedule, getAnalysisId,
        lookupVal, lookupArg, schedResp]

theorem post_provenance_dispatch_forced (ext : ExtSvc) (w : World) (now ttl : Nat) (a : ProvArgs)
    (pd : List (String × Value))
    (hp : ext.parseProjectProv a.application_stack = ParseOutcome.ok pd)
    (hf : a.force = true) :
    post_provenance_python ext w now ttl a =
      ((schedResp ext SchedKind.provenanceChecker w.schedCount (provParams a ext.indexUrls), 202),
       { w with schedCount := w.schedCount + 1,
                provenanceCache := upd w.provenanceCache (provCacheKey pd a ext.indexUrls)
                  (ext.schedId SchedKind.provenanceChecker w.schedCount, now) },
       [Event.graphIndexUrls,
        Event.dispatch SchedKind.provenanceChecker (provParams a ext.indexUrls),
        Event.cachePut StoreName.provenanceCache (provCacheKey pd a ext.indexUrls)]) := by
  simp [post_provenance_python, hp, hf, provSchedule, _do_schedule, getAnalysisId,
        lookupVal, lookupArg, schedResp]

theorem post_provenance_cached_hit (ext : ExtSvc) (w : World) (now ttl : Nat) (a : ProvArgs)
    (pd : List (String × Value)) (aid : String) (ts : Nat)
    (hp : ext.parseProjectProv a.application_stack = ParseOutcome.ok pd)
    (hf : a.force = false)
    (hc : w.provenanceCache (provCacheKey pd a ext.indexUrls) = some (aid, ts))
    (hts : ts + ttl > now) :
    post_provenance_python ext w now ttl a =
      ((cachedResp aid (provParams a ext.indexUrls), 202), w,
       [Event.graphIndexUrls,
        Event.cacheGet StoreName.provenanceCache (provCacheKey pd a ext.indexUrls)]) := by
  simp [post_provenance_python, hp, hf, hc, hts, cachedResp]

theorem post_advise_dispatch_miss (ext : ExtSvc) (w : World) (now ttl : Nat) (a : AdviseArgs)
    (pd : List (String × Value))
    (hp : ext.parseProjectAdv a.input.application_stack a.input.runtime_environment =
      ParseOutcome.ok pd)
    (hf : a.force = false)
    (hc : w.advisersCache (adviseCacheKey pd a) = none) :
    post_advise_python ext w now ttl a =
      ((schedResp ext SchedKind.adviser w.schedCount (adviseParams a), 202),
       { w with schedCount := w.schedCount + 1,
                advisersCache := upd w.advisersCache (adviseCacheKey pd a)
                  (ext.schedId SchedKind.adviser w.schedCount, now) },
       [Event.cacheGet StoreName.advisersCache (adviseCacheKey pd a),
        Event.dispatch SchedKind.adviser (adviseParams a),
        Event.cachePut StoreName.advisersCache (adviseCacheKey pd a)]) := by
  simp [post_advise_python, hp, hf, hc, adviseSchedule, _do_schedule, getAnalysisId,
        lookupVal, lookupArg, schedResp]

theorem post_advise_dispatch_expired (ext : ExtSvc) (w : World) (now ttl : Nat) (a : AdviseArgs)
    (pd : List (String × Value)) (aid : String) (ts : Nat)
    (hp : ext.parseProjectAdv a.input.application_stack a.input.runtime_environment =
      ParseOutcome.ok pd)
    (hf : a.force = false)
    (hc : w.advisersCache (adviseCacheKey pd a) = some (aid, ts))
    (hts : ts + ttl ≤ now) :
    post_advise_python ext w now ttl a =
      ((schedResp ext SchedKind.adviser w.schedCount (adviseParams a), 202),
       { w with schedCount := w.schedCount + 1,
                advisersCache := upd w.advisersCache (adviseCacheKey pd a)
                  (ext.schedId SchedKind.adviser w.schedCount, now) },
       [Event.cacheGet StoreName.advisersCache (adviseCacheKey pd a),
        Event.dispatch SchedKind.adviser (adviseParams a),
        Event.cachePut StoreName.advisersCache (adviseCacheKey pd a)]) := by
  have hlt : ¬ ts + ttl > now := by omega
  simp [post_advise_python, hp, hf, hc, hlt, adviseSchedule, _do_schedule, getAnalysisId,
        lookupVal, lookupArg, schedResp]

theorem post_advise_dispatch_forced (ext : ExtSvc) (w : World) (now ttl : Nat) (a : AdviseArgs)
    (pd : List (String × Value))
    (hp : ext.parseProjectAdv a.input.application_stack a.input.runtime_environment =
      ParseOutcome.ok pd)
    (hf : a.force = true) :
    post_advise_python ext w now ttl a =
      ((schedResp ext SchedKind.adviser w.schedCount (adviseParams a), 202),
       { w with schedCount := w.schedCount + 1,
                advisersCache := upd w.advisersCache (adviseCacheKey pd a)
                  (ext.schedId SchedKind.adviser w.schedCount, now) },
       [Event.dispatch SchedKind.adviser (adviseParams a),
        Event.cachePut StoreName.advisersCache (adviseCacheKey pd a)]) := by
  simp [post_advise_python, hp, hf, adviseSchedule, _do_schedule, getAnalysisId,
        lookupVal, lookupArg, schedResp]

theorem post_advise_cached_hit (ext : ExtSvc) (w : World) (now ttl : Nat) (a : AdviseArgs)
    (pd : List (String × Value)) (aid : String) (ts : Nat)
    (hp : ext.parseProjectAdv a.input.application_stack a.input.runtime_environment =
      ParseOutcome.ok pd)
    (hf : a.force = false)
    (hc : w.advisersCache (adviseCacheKey pd a) = some (aid, ts))
    (hts : ts + ttl > now) :
    post_advise_python ext w now ttl a =
      ((cachedResp aid (adviseParams a), 202), w,
       [Event.cacheGet StoreName.advisersCache (adviseCacheKey pd a)]) := by
  simp [post_advise_python, hp, hf, hc, hts, cachedResp]

theorem post_buildlog_dispatch_miss (ext : ExtSvc) (w : World) (log_info : Value)
    (hc : w.buildLogsAnalysesCache (_compute_digest_params (buildlogParams log_info false)) =
      none) :
    post_buildlog_analyze ext w log_info false =
      ((schedResp ext SchedKind.buildAnalyze w.schedCount
          [("document_id", Value.str (ext.buildLogDocId w.buildLogCount))], 202),
       { w with schedCount := w.schedCount + 1, buildLogCount := w.buildLogCount + 1,
                buildLogsAnalysesCache := upd w.buildLogsAnalysesCache
                  (_compute_digest_params (buildlogParams log_info false))
                  (ext.schedId SchedKind.buildAnalyze w.schedCount) },
       [Event.cacheGet StoreName.buildLogsAnalysesCache
          (_compute_digest_params (buildlogParams log_info false)),
        Event.storeDoc StoreName.buildLogs,
        Event.dispatch SchedKind.buildAnalyze
          [("document_id", Value.str (ext.buildLogDocId w.buildLogCount))],
        Event.cachePut StoreName.buildLogsAnalysesCache
          (_compute_digest_params (buildlogParams log_info false))]) := by
  simp [post_buildlog_analyze, hc, _do_schedule, getAnalysisId, lookupVal, lookupArg, schedResp]

theorem post_buildlog_dispatch_forced (ext : ExtSvc) (w : World) (log_info : Value) :
    post_buildlog_analyze ext w log_info true =
      ((schedResp ext SchedKind.buildAnalyze w.schedCount
          [("document_id", Value.str (ext.buildLogDocId w.buildLogCount))], 202),
       { w with schedCount := w.schedCount + 1, buildLogCount := w.buildLogCount + 1,
                buildLogsAnalysesCache := upd w.buildLogsAnalysesCache
                  (_compute_digest_params (buildlogParams log_info true))
                  (ext.schedId SchedKind.buildAnalyze w.schedCount) },
       [Event.storeDoc StoreName.buildLogs,
        Event.dispatch SchedKind.buildAnalyze
          [("document_id", Value.str (ext.buildLogDocId w.buildLogCount))],
        Event.cachePut StoreName.buildLogsAnalysesCache
          (_compute_digest_params (buildlogParams log_info true))]) := by
  simp [post_buildlog_analyze, _do_schedule, getAnalysisId, lookupVal, lookupArg, schedResp]

theorem post_buildlog_cached_hit (ext : ExtSvc) (w : World) (log_info : Value) (aid : String)
    (hc : w.buildLogsAnalysesCache (_compute_digest_params (buildlogParams log_info false)) =
      some aid) :
    post_buildlog_analyze ext w log_info false =
      ((Value.obj [("analysis_id", Value.str aid), ("cached", Value.bool true),
                   ("parameters", Value.obj [("log_info", log_info)])], 202), w,
       [Event.cacheGet StoreName.buildLogsAnalysesCache
          (_compute_digest_params (buildlogParams log_info false))]) := by
  simp [post_buildlog_analyze, hc]

/-- Claim C1: for each orchestrator (image analysis, provenance check,
advise, build-log analysis), when a first call with parameters P
succeeds by scheduling (status 202, cache record stored) and — for the
TTL-bearing caches — the TTL has not elapsed at the second call, a
second call with the same parameters P and force unset returns 202
with cached true carrying the first call's analysis_id, and its trace
contains zero dispatch calls. -/
theorem C1_idempotent_memoization :
    (∀ (ext : ExtSvc) (w : World) (a : AnalyzeArgs) (dg : String),
      ext.imageMetadata a.image a.registry_user a.registry_password a.verify_tls =
        MetaResult.ok dg →
      a.force = false →
      w.analysesCache (analyzeCacheKey dg a) = none →
      (post_analyze ext w a).1.2 = 202 ∧
      lookupVal (post_analyze ext w a).1.1 "analysis_id" =
        some (Value.str (ext.schedId SchedKind.packageExtract w.schedCount)) ∧
      (post_analyze ext (post_analyze ext w a).2.1 a).1 =
        (cachedResp (ext.schedId SchedKind.packageExtract w.schedCount) (analyzeParameters a),
         202) ∧
      countDispatch (post_analyze ext (post_analyze ext w a).2.1 a).2.2 = 0) ∧
    (∀ (ext : ExtSvc) (w : World) (t1 t2 ttl : Nat) (a : ProvArgs) (pd : List (String × Value)),
      ext.parseProjectProv a.application_stack = ParseOutcome.ok pd →
      a.force = false →
      w.provenanceCache (provCacheKey pd a ext.indexUrls) = none →
      t1 + ttl > t2 →
      (post_provenance_python ext w t1 ttl a).1.2 = 202 ∧
      lookupVal (post_provenance_python ext w t1 ttl a).1.1 "analysis_id" =
        some (Value.str (ext.schedId SchedKind.provenanceChecker w.schedCount)) ∧
      (post_provenance_python ext (post_provenance_python ext w t1 ttl a).2.1 t2 ttl a).1 =
        (cachedResp (ext.schedId SchedKind.provenanceChecker w.schedCount)
          (provParams a ext.indexUrls), 202) ∧
      countDispatch
        (post_provenance_python ext (post_provenance_python ext w t1 ttl a).2.1 t2 ttl a).2.2 =
        0) ∧
    (∀ (ext : ExtSvc) (w : World) (t1 t2 ttl : Nat) (a : AdviseArgs) (pd : List (String × Value)),
      ext.parseProjectAdv a.input.application_stack a.input.runtime_environment =
        ParseOutcome.ok pd →
      a.force = false →
      w.advisersCache (adviseCacheKey pd a) = none →
      t1 + ttl > t2 →
      (post_advise_python ext w t1 ttl a).1.2 = 202 ∧
      lookupVal (post_advise_python ext w t1 ttl a).1.1 "analysis_id" =
        some (Value.str (ext.schedId SchedKind.adviser w.schedCount)) ∧
      (post_advise_python ext (post_advise_python ext w t1 ttl a).2.1 t2 ttl a).1 =
        (cachedResp (ext.schedId SchedKind.adviser w.schedCount) (adviseParams a), 202) ∧
      countDispatch
        (post_advise_python ext (post_advise_python ext w t1 ttl a).2.1 t2 ttl a).2.2 = 0) ∧
    (∀ (ext : ExtSvc) (w : World) (log_info : Value),
      w.buildLogsAnalysesCache (_compute_digest_params (buildlogParams log_info false)) = none →
      (post_buildlog_analyze ext w log_info false).1.2 = 202 ∧
      lookupVal (post_buildlog_analyze ext w log_info false).1.1 "analysis_id" =
        some (Value.str (ext.schedId SchedKind.buildAnalyze w.schedCount)) ∧
      (post_buildlog_analyze ext (post_buildlog_analyze ext w log_info false).2.1 log_info
        false).1 =
        (Value.obj [("analysis_id", Value.str (ext.schedId SchedKind.buildAnalyze w.schedCount)),
                    ("cached", Value.bool true),
                    ("parameters", Value.obj [("log_info", log_info)])], 202) ∧
      countDispatch
        (post_buildlog_analyze ext (post_buildlog_analyze ext w log_info false).2.1 log_info
          false).2.2 = 0) := by
  refine ⟨?_, ?_, ?_, ?_⟩
  · intro ext w a dg hm hf hc
    have h1 := post_analyze_dispatch_miss ext w a dg hm hf hc
    have h2 := post_analyze_cached_hit ext ((post_analyze ext w a).2.1) a dg
      (ext.schedId SchedKind.packageExtract w.schedCount) hm hf
      (by rw [h1]; exact upd_self _ _ _)
    refine ⟨by rw [h1], ?_, ?_, ?_⟩
    · rw [h1]; simp [schedResp, lookupVal, lookupArg]
    · rw [h2]
    · rw [h2]; simp [countDispatch, isDispatch]
  · intro ext w t1 t2 ttl a pd hp hf hc htl
    have h1 := post_provenance_dispatch_miss ext w t1 ttl a pd hp hf hc
    have h2 := post_provenance_cached_hit ext ((post_provenance_python ext w t1 ttl a).2.1)
      t2 ttl a pd (ext.schedId SchedKind.provenanceChecker w.schedCount) t1 hp hf
      (by rw [h1]; exact upd_self _ _ _) htl
    refine ⟨by rw [h1], ?_, ?_, ?_⟩
    · rw [h1]; simp [schedResp, lookupVal, lookupArg]
    · rw [h2]
    · rw [h2]; simp [countDispatch, isDispatch]
  · intro ext w t1 t2 ttl a pd hp hf hc htl
    have h1 := post_advise_dispatch_miss ext w t1 ttl a pd hp hf hc
    have h2 := post_advise_cached_hit ext ((post_advise_python ext w t1 ttl a).2.1)
      t2 ttl a pd (ext.schedId SchedKind.adviser w.schedCount) t1 hp hf
      (by rw [h1]; exact upd_self _ _ _) htl
    refine ⟨by rw [h1], ?_, ?_, ?_⟩
    · rw [h1]; simp [schedResp, lookupVal, lookupArg]
    · rw [h2]
    · rw [h2]; simp [countDispatch, isDispatch]
  · intro ext w log_info hc
    have h1 := post_buildlog_dispatch_miss ext w log_info hc
    have h2 := post_buildlog_cached_hit ext ((post_buildlog_analyze ext w log_info false).2.1)
      log_info (ext.schedId SchedKind.buildAnalyze w.schedCount)
      (by rw [h1]; exact upd_self _ _ _)
    refine ⟨by rw [h1], ?_, ?_, ?_⟩
    · rw [h1]; simp [schedResp, lookupVal, lookupArg]
    · rw [h2]
    · rw [h2]; simp [countDispatch, isDispatch]

/-- A sample image-analysis request with credentials. -/
def analyzeSample : AnalyzeArgs :=
  { image := "fedora:31", debug := false, registry_user := some "user1",
    registry_password := some "s3cret", environment_type := none, origin := none,
    verify_tls := true, force := false }

/-- A sample provenance-check request. -/
def provSample : ProvArgs :=
  { application_stack := Value.obj [("requirements", Value.str "req"),
                                    ("requirements_lock", Value.str "lock")],
    origin := none, debug := false, force := false }

/-- A sample advise request. -/
def adviseSample : AdviseArgs :=
  { input := { application_stack := Value.obj [("requirements", Value.str "req")],
               runtime_environment := none, library_usage := none },
    recommendation_type := "stable", count := none, limit := none,
    limit_latest_versions := none, origin := none, debug := false, force := false }

/-- A sample build log. -/
def logSample : Value := Value.obj [("log", Value.str "STEP 1: FROM fedora:31")]

/-- Witness for C1: concrete first-call-misses-then-second-call-hits
runs for all four orchestrators (first call at time 100, second at
150, TTL 100 where a TTL applies). -/
theorem C1_idempotent_memoization_witness :
    extOk.imageMetadata analyzeSample.image analyzeSample.registry_user
      analyzeSample.registry_password analyzeSample.verify_tls = MetaResult.ok "sha256:aaa" ∧
    analyzeSample.force = false ∧
    W0.analysesCache (analyzeCacheKey "sha256:aaa" analyzeSample) = none ∧
    ((post_analyze extOk (post_analyze extOk W0 analyzeSample).2.1 analyzeSample).1 =
      (cachedResp (extOk.schedId SchedKind.packageExtract W0.schedCount)
        (analyzeParameters analyzeSample), 202) ∧
     countDispatch (post_analyze extOk (post_analyze extOk W0 analyzeSample).2.1
       analyzeSample).2.2 = 0) ∧
    extOk.parseProjectProv provSample.application_stack =
      ParseOutcome.ok [("requirements", Value.str "r")] ∧
    W0.provenanceCache (provCacheKey [("requirements", Value.str "r")] provSample
      extOk.indexUrls) = none ∧
    (100 : Nat) + 100 > 150 ∧
    ((post_provenance_python extOk (post_provenance_python extOk W0 100 100 provSample).2.1
        150 100 provSample).1 =
      (cachedResp (extOk.schedId SchedKind.provenanceChecker W0.schedCount)
        (provParams provSample extOk.indexUrls), 202) ∧
     countDispatch (post_provenance_python extOk
       (post_provenance_python extOk W0 100 100 provSample).2.1 150 100 provSample).2.2 = 0) ∧
    extOk.parseProjectAdv adviseSample.input.application_stack
      adviseSample.input.runtime_environment =
      ParseOutcome.ok [("requirements", Value.str "r")] ∧
    W0.advisersCache (adviseCacheKey [("requirements", Value.str "r")] adviseSample) = none ∧
    ((post_advise_python extOk (post_advise_python extOk W0 100 100 adviseSample).2.1
        150 100 adviseSample).1 =
      (cachedResp (extOk.schedId SchedKind.adviser W0.schedCount) (adviseParams adviseSample),
       202) ∧
     countDispatch (post_advise_python extOk
       (post_advise_python extOk W0 100 100 adviseSample).2.1 150 100 adviseSample).2.2 = 0) ∧
    W0.buildLogsAnalysesCache (_compute_digest_params (buildlogParams logSample false)) =
      none ∧
    ((post_buildlog_analyze extOk (post_buildlog_analyze extOk W0 logSample false).2.1
        logSample false).1 =
      (Value.obj [("analysis_id", Value.str (extOk.schedId SchedKind.buildAnalyze W0.schedCount)),
                  ("cached", Value.bool true),
                  ("parameters", Value.obj [("log_info", logSample)])], 202) ∧
     countDispatch (post_buildlog_analyze extOk
       (post_buildlog_analyze extOk W0 logSample false).2.1 logSample false).2.2 = 0) :=
  ⟨rfl, rfl, rfl,
   ⟨(C1_idempotent_memoization.1 extOk W0 analyzeSample "sha256:aaa" rfl rfl rfl).2.2.1,
    (C1_idempotent_memoization.1 extOk W0 analyzeSample "sha256:aaa" rfl rfl rfl).2.2.2⟩,
   rfl, rfl, by omega,
   ⟨(C1_idempotent_memoization.2.1 extOk W0 100 150 100 provSample
       [("requirements", Value.str "r")] rfl rfl rfl (by omega)).2.2.1,
    (C1_idempotent_memoization.2.1 extOk W0 100 150 100 provSample
       [("requirements", Value.str "r")] rfl rfl rfl (by omega)).2.2.2⟩,
   rfl, rfl,
   ⟨(C1_idempotent_memoization.2.2.1 extOk W0 100 150 100 adviseSample
       [("requirements", Value.str "r")] rfl rfl rfl (by omega)).2.2.1,
    (C1_idempotent_memoization.2.2.1 extOk W0 100 150 100 adviseSample
       [("requirements", Value.str "r")] rfl rfl rfl (by omega)).2.2.2⟩,
   rfl,
   ⟨(C1_idempotent_memoization.2.2.2 extOk W0 logSample rfl).2.2.1,
    (C1_idempotent_memoization.2.2.2 extOk W0 logSample rfl).2.2.2⟩⟩

/-- Claim C5: for the provenance-check and advise orchestrators
without force, a cache record with timestamp + TTL less than or equal
to now is treated exactly like a miss — a new job is dispatched and
the record overwritten with the new analysis_id and timestamp — even
though the cache get returns the record (the trace shows the get),
while a record with timestamp + TTL greater than now is returned as a
cached hit. -/
theorem C5_ttl_expiry_treated_as_miss :
    (∀ (ext : ExtSvc) (w : World) (now ttl : Nat) (a : ProvArgs)
       (pd : List (String × Value)) (aid : String) (ts : Nat),
      ext.parseProjectProv a.application_stack = ParseOutcome.ok pd →
      a.force = false →
      w.provenanceCache (provCacheKey pd a ext.indexUrls) = some (aid, ts) →
      ts + ttl ≤ now →
      post_provenance_python ext w now ttl a =
        ((schedResp ext SchedKind.provenanceChecker w.schedCount (provParams a ext.indexUrls),
          202),
         { w with schedCount := w.schedCount + 1,
                  provenanceCache := upd w.provenanceCache (provCacheKey pd a ext.indexUrls)
                    (ext.schedId SchedKind.provenanceChecker w.schedCount, now) },
         [Event.graphIndexUrls,
          Event.cacheGet StoreName.provenanceCache (provCacheKey pd a ext.indexUrls),
          Event.dispatch SchedKind.provenanceChecker (provParams a ext.indexUrls),
          Event.cachePut StoreName.provenanceCache (provCacheKey pd a ext.indexUrls)])) ∧
    (∀ (ext : ExtSvc) (w : World) (now ttl : Nat) (a : ProvArgs)
       (pd : List (String × Value)) (aid : String) (ts : Nat),
      ext.parseProjectProv a.application_stack = ParseOutcome.ok pd →
      a.force = false →
      w.provenanceCache (provCacheKey pd a ext.indexUrls) = some (aid, ts) →
      ts + ttl > now →
      post_provenance_python ext w now ttl a =
        ((cachedResp aid (provParams a ext.indexUrls), 202), w,
         [Event.graphIndexUrls,
          Event.cacheGet StoreName.provenanceCache (provCacheKey pd a ext.indexUrls)])) ∧
    (∀ (ext : ExtSvc) (w : World) (now ttl : Nat) (a : AdviseArgs)
       (pd : List (String × Value)) (aid : String) (ts : Nat),
      ext.parseProjectAdv a.input.application_stack a.input.runtime_environment =
        ParseOutcome.ok pd →
      a.force = false →
      w.advisersCache (adviseCacheKey pd a) = some (aid, ts) →
      ts + ttl ≤ now →
      post_advise_python ext w now ttl a =
        ((schedResp ext SchedKind.adviser w.schedCount (adviseParams a), 202),
         { w with schedCount := w.schedCount + 1,
                  advisersCache := upd w.advisersCache (adviseCacheKey pd a)
                    (ext.schedId SchedKind.adviser w.schedCount, now) },
         [Event.cacheGet StoreName.advisersCache (adviseCacheKey pd a),
          Event.dispatch SchedKind.adviser (adviseParams a),
          Event.cachePut StoreName.advisersCache (adviseCacheKey pd a)])) ∧
    (∀ (ext : ExtSvc) (w : World) (now ttl : Nat) (a : AdviseArgs)
       (pd : List (String × Value)) (aid : String) (ts : Nat),
      ext.parseProjectAdv a.input.application_stack a.input.runtime_environment =
        ParseOutcome.ok pd →
      a.force = false →
      w.advisersCache (adviseCacheKey pd a) = some (aid, ts) →
      ts + ttl > now →
      post_advise_python ext w now ttl a =
        ((cachedResp aid (adviseParams a), 202), w,
         [Event.cacheGet StoreName.advisersCache (adviseCacheKey pd a)])) :=
  ⟨fun ext w now ttl a pd aid ts hp hf hc hts =>
     post_provenance_dispatch_expired ext w now ttl a pd aid ts hp hf hc hts,
   fun ext w now ttl a pd aid ts hp hf hc hts =>
     post_provenance_cached_hit ext w now ttl a pd aid ts hp hf hc hts,
   fun ext w now ttl a pd aid ts hp hf hc hts =>
     post_advise_dispatch_expired ext w now ttl a pd aid ts hp hf hc hts,
   fun ext w now ttl a pd aid ts hp hf hc hts =>
     post_advise_cached_hit ext w now ttl a pd aid ts hp hf hc hts⟩

/-- A world whose TTL caches hold a record written at time 100 and
whose no-TTL caches hold a record, for the TTL and force witnesses. -/
def Wrec : World :=
  { W0 with analysesCache := fun _ => some ("package-extract-cached"),
            provenanceCache := fun _ => some ("provenance-checker-old", 100),
            advisersCache := fun _ => some ("adviser-old", 100),
            buildLogsAnalysesCache := fun _ => some ("build-analyze-cached") }

/-- Witness for C5: the record written at 100 with TTL 100 is expired
at 300 (dispatch) and fresh at 150 (cached hit), for both TTL caches. -/
theorem C5_ttl_expiry_treated_as_miss_witness :
    extOk.parseProjectProv provSample.application_stack =
      ParseOutcome.ok [("requirements", Value.str "r")] ∧
    Wrec.provenanceCache (provCacheKey [("requirements", Value.str "r")] provSample
      extOk.indexUrls) = some ("provenance-checker-old", 100) ∧
    (100 : Nat) + 100 ≤ 300 ∧ (100 : Nat) + 100 > 150 ∧
    post_provenance_python extOk Wrec 300 100 provSample =
      ((schedResp extOk SchedKind.provenanceChecker Wrec.schedCount
          (provParams provSample extOk.indexUrls), 202),
       { Wrec with schedCount := Wrec.schedCount + 1,
                   provenanceCache := upd Wrec.provenanceCache
                     (provCacheKey [("requirements", Value.str "r")] provSample extOk.indexUrls)
                     (extOk.schedId SchedKind.provenanceChecker Wrec.schedCount, 300) },
       [Event.graphIndexUrls,
        Event.cacheGet StoreName.provenanceCache
          (provCacheKey [("requirements", Value.str "r")] provSample extOk.indexUrls),
        Event.dispatch SchedKind.provenanceChecker (provParams provSample extOk.indexUrls),
        Event.cachePut StoreName.provenanceCache
          (provCacheKey [("requirements", Value.str "r")] provSample extOk.indexUrls)]) ∧
    post_provenance_python extOk Wrec 150 100 provSample =
      ((cachedResp "provenance-checker-old" (provParams provSample extOk.indexUrls), 202), Wrec,
       [Event.graphIndexUrls,
        Event.cacheGet StoreName.provenanceCache
          (provCacheKey [("requirements", Value.str "r")] provSample extOk.indexUrls)]) ∧
    post_advise_python extOk Wrec 150 100 adviseSample =
      ((cachedResp "adviser-old" (adviseParams adviseSample), 202), Wrec,
       [Event.cacheGet StoreName.advisersCache
          (adviseCacheKey [("requirements", Value.str "r")] adviseSample)]) :=
  ⟨rfl, rfl, by omega, by omega,
   C5_ttl_expiry_treated_as_miss.1 extOk Wrec 300 100 provSample
     [("requirements", Value.str "r")] "provenance-checker-old" 100 rfl rfl rfl (by omega),
   C5_ttl_expiry_treated_as_miss.2.1 extOk Wrec 150 100 provSample
     [("requirements", Value.str "r")] "provenance-checker-old" 100 rfl rfl rfl (by omega),
   C5_ttl_expiry_treated_as_miss.2.2.2 extOk Wrec 150 100 adviseSample
     [("requirements", Value.str "r")] "adviser-old" 100 rfl rfl rfl (by omega)⟩

/-- Claim C6: for every orchestrator, when force is set the cache is
never consulted for a hit (no cacheGet event appears in the trace and
the result is independent of any fresh record present), a new job is
always dispatched, and on the 202 from scheduling the cache record for
the fingerprint is overwritten with the new analysis_id. -/
theorem C6_force_bypasses_cache :
    (∀ (ext : ExtSvc) (w : World) (a : AnalyzeArgs) (dg : String),
      ext.imageMetadata a.image a.registry_user a.registry_password a.verify_tls =
        MetaResult.ok dg →
      a.force = true →
      post_analyze ext w a =
        ((schedResp ext SchedKind.packageExtract w.schedCount (analyzeParameters a), 202),
         { w with schedCount := w.schedCount + 1,
                  analysisByDigest := upd w.analysisByDigest dg
                    (schedResp ext SchedKind.packageExtract w.schedCount (analyzeParameters a)),
                  analysesCache := upd w.analysesCache (analyzeCacheKey dg a)
                    (ext.schedId SchedKind.packageExtract w.schedCount) },
         [Event.metadataFetch a.image a.registry_user a.registry_password,
          Event.dispatch SchedKind.packageExtract (analyzeParameters a),
          Event.storeDoc StoreName.analysisByDigest,
          Event.cachePut StoreName.analysesCache (analyzeCacheKey dg a)])) ∧
    (∀ (ext : ExtSvc) (w : World) (now ttl : Nat) (a : ProvArgs) (pd : List (String × Value)),
      ext.parseProjectProv a.application_stack = ParseOutcome.ok pd →
      a.force = true →
      post_provenance_python ext w now ttl a =
        ((schedResp ext SchedKind.provenanceChecker w.schedCount (provParams a ext.indexUrls),
          202),
         { w with schedCount := w.schedCount + 1,
                  provenanceCache := upd w.provenanceCache (provCacheKey pd a ext.indexUrls)
                    (ext.schedId SchedKind.provenanceChecker w.schedCount, now) },
         [Event.graphIndexUrls,
          Event.dispatch SchedKind.provenanceChecker (provParams a ext.indexUrls),
          Event.cachePut StoreName.provenanceCache (provCacheKey pd a ext.indexUrls)])) ∧
    (∀ (ext : ExtSvc) (w : World) (now ttl : Nat) (a : AdviseArgs) (pd : List (String × Value)),
      ext.parseProjectAdv a.input.application_stack a.input.runtime_environment =
        ParseOutcome.ok pd →
      a.force = true →
      post_advise_python ext w now ttl a =
        ((schedResp ext SchedKind.adviser w.schedCount (adviseParams a), 202),
         { w with schedCount := w.schedCount + 1,
                  advisersCache := upd w.advisersCache (adviseCacheKey pd a)
                    (ext.schedId SchedKind.adviser w.schedCount, now) },
         [Event.dispatch SchedKind.adviser (adviseParams a),
          Event.cachePut StoreName.advisersCache (adviseCacheKey pd a)])) ∧
    (∀ (ext : ExtSvc) (w : World) (log_info : Value),
      post_buildlog_analyze ext w log_info true =
        ((schedResp ext SchedKind.buildAnalyze w.schedCount
            [("document_id", Value.str (ext.buildLogDocId w.buildLogCount))], 202),
         { w with schedCount := w.schedCount + 1, buildLogCount := w.buildLogCount + 1,
                  buildLogsAnalysesCache := upd w.buildLogsAnalysesCache
                    (_compute_digest_params (buildlogParams log_info true))
                    (ext.schedId SchedKind.buildAnalyze w.schedCount) },
         [Event.storeDoc StoreName.buildLogs,
          Event.dispatch SchedKind.buildAnalyze
            [("document_id", Value.str (ext.buildLogDocId w.buildLogCount))],
          Event.cachePut StoreName.buildLogsAnalysesCache
            (_compute_digest_params (buildlogParams log_info true))])) :=
  ⟨fun ext w a dg hm hf => post_analyze_dispatch_forced ext w a dg hm hf,
   fun ext w now ttl a pd hp hf => post_provenance_dispatch_forced ext w now ttl a pd hp hf,
   fun ext w now ttl a pd hp hf => post_advise_dispatch_forced ext w now ttl a pd hp hf,
   fun ext w log_info => post_buildlog_dispatch_forced ext w log_info⟩

/-- The sample requests with force set. -/
def analyzeSampleF : AnalyzeArgs := { analyzeSample with force := true }

/-- The sample provenance request with force set. -/
def provSampleF : ProvArgs := { provSample with force := true }

/-- The sample advise request with force set. -/
def adviseSampleF : AdviseArgs := { adviseSample with force := true }

/-- Witness for C6: forced runs against a world whose caches all hold
fresh records; each orchestrator dispatches anyway and overwrites the
record, with no cacheGet event in the trace. -/
theorem C6_force_bypasses_cache_witness :
    extOk.imageMetadata analyzeSampleF.image analyzeSampleF.registry_user
      analyzeSampleF.registry_password analyzeSampleF.verify_tls = MetaResult.ok "sha256:aaa" ∧
    analyzeSampleF.force = true ∧
    Wrec.analysesCache (analyzeCacheKey "sha256:aaa" analyzeSampleF) =
      some ("package-extract-cached") ∧
    post_analyze extOk Wrec analyzeSampleF =
      ((schedResp extOk SchedKind.packageExtract Wrec.schedCount
          (analyzeParameters analyzeSampleF), 202),
       { Wrec with schedCount := Wrec.schedCount + 1,
                   analysisByDigest := upd Wrec.analysisByDigest "sha256:aaa"
                     (schedResp extOk SchedKind.packageExtract Wrec.schedCount
                       (analyzeParameters analyzeSampleF)),
                   analysesCache := upd Wrec.analysesCache
                     (analyzeCacheKey "sha256:aaa" analyzeSampleF)
                     (extOk.schedId SchedKind.packageExtract Wrec.schedCount) },
       [Event.metadataFetch analyzeSampleF.image analyzeSampleF.registry_user
          analyzeSampleF.registry_password,
        Event.dispatch SchedKind.packageExtract (analyzeParameters analyzeSampleF),
        Event.storeDoc StoreName.analysisByDigest,
        Event.cachePut StoreName.analysesCache (analyzeCacheKey "sha256:aaa" analyzeSampleF)]) ∧
    post_buildlog_analyze extOk Wrec logSample true =
      ((schedResp extOk SchedKind.buildAnalyze Wrec.schedCount
          [("document_id", Value.str (extOk.buildLogDocId Wrec.buildLogCount))], 202),
       { Wrec with schedCount := Wrec.schedCount + 1, buildLogCount := Wrec.buildLogCount + 1,
                   buildLogsAnalysesCache := upd Wrec.buildLogsAnalysesCache
                     (_compute_digest_params (buildlogParams logSample true))
                     (extOk.schedId SchedKind.buildAnalyze Wrec.schedCount) },
       [Event.storeDoc StoreName.buildLogs,
        Event.dispatch SchedKind.buildAnalyze
          [("document_id", Value.str (extOk.buildLogDocId Wrec.buildLogCount))],
        Event.cachePut StoreName.buildLogsAnalysesCache
          (_compute_digest_params (buildlogParams logSample true))]) ∧
    post_provenance_python extOk Wrec 150 100 provSampleF =
      ((schedResp extOk SchedKind.provenanceChecker Wrec.schedCount
          (provParams provSampleF extOk.indexUrls), 202),
       { Wrec with schedCount := Wrec.schedCount + 1,
                   provenanceCache := upd Wrec.provenanceCache
                     (provCacheKey [("requirements", Value.str "r")] provSampleF extOk.indexUrls)
                     (extOk.schedId SchedKind.provenanceChecker Wrec.schedCount, 150) },
       [Event.graphIndexUrls,
        Event.dispatch SchedKind.provenanceChecker (provParams provSampleF extOk.indexUrls),
        Event.cachePut StoreName.provenanceCache
          (provCacheKey [("requirements", Value.str "r")] provSampleF extOk.indexUrls)]) ∧
    post_advise_python extOk Wrec 150 100 adviseSampleF =
      ((schedResp extOk SchedKind.adviser Wrec.schedCount (adviseParams adviseSampleF), 202),
       { Wrec with schedCount := Wrec.schedCount + 1,
                   advisersCache := upd Wrec.advisersCache
                     (adviseCacheKey [("requirements", Value.str "r")] adviseSampleF)
                     (extOk.schedId SchedKind.adviser Wrec.schedCount, 150) },
       [Event.dispatch SchedKind.adviser (adviseParams adviseSampleF),
        Event.cachePut StoreName.advisersCache
          (adviseCacheKey [("requirements", Value.str "r")] adviseSampleF)]) :=
  ⟨rfl, rfl, rfl,
   C6_force_bypasses_cache.1 extOk Wrec analyzeSampleF "sha256:aaa" rfl rfl,
   C6_force_bypasses_cache.2.2.2 extOk Wrec logSample,
   C6_force_bypasses_cache.2.1 extOk Wrec 150 100 provSampleF
     [("requirements", Value.str "r")] rfl rfl,
   C6_force_bypasses_cache.2.2.1 extOk Wrec 150 100 adviseSampleF
     [("requirements", Value.str "r")] rfl rfl⟩

/-- Counterexample to C8 as stated: a concrete image-analysis request
carrying registry_password "s3cret" receives a response whose
parameters echo contains the raw credential value, so raw credentials
do appear in a response body produced by the operation. -/
theorem C8_counterexample_password_echoed_in_response :
    analyzeSampleF.registry_password = some "s3cret" ∧
    lookupVal (post_analyze extOk W0 analyzeSampleF).1.1 "parameters" =
      some (Value.obj (analyzeParameters analyzeSampleF)) ∧
    lookupArg (analyzeParameters analyzeSampleF) "registry_password" =
      some (Value.str "s3cret") :=
  ⟨rfl, rfl, rfl⟩

/-- Claim C8 amended: the registry credentials are part of the hashed
input of the parameter fingerprint, and the fingerprint itself — the
only credential-derived component of the cache key — is a 64-character
lowercase-hex digest, so the cache key never embeds the raw values;
however, the raw credential values are echoed in the response body's
parameters mapping. -/
theorem C8_credentials_hashed_in_key_echoed_in_response :
    ∀ (ext : ExtSvc) (w : World) (a : AnalyzeArgs) (dg : String),
      ext.imageMetadata a.image a.registry_user a.registry_password a.verify_tls =
        MetaResult.ok dg →
      a.force = true →
      (_compute_digest_params (analyzeParameters a)).length = 64 ∧
      (∀ c ∈ (_compute_digest_params (analyzeParameters a)).toList, c ∈ hexDigits) ∧
      lookupArg (analyzeParameters a) "registry_user" = some (optVal a.registry_user) ∧
      lookupArg (analyzeParameters a) "registry_password" =
        some (optVal a.registry_password) ∧
      lookupVal (post_analyze ext w a).1.1 "parameters" =
        some (Value.obj (analyzeParameters a)) := by
  intro ext w a dg hm hf
  have h1 := post_analyze_dispatch_forced ext w a dg hm hf
  refine ⟨sha256Hex_length _, sha256Hex_subset _, ?_, ?_, ?_⟩
  · simp [analyzeParameters, lookupArg]
  · simp [analyzeParameters, lookupArg]
  · rw [h1]; simp [schedResp, lookupVal, lookupArg]

/-- Witness for the amended C8 at the concrete forced request with
credentials. -/
theorem C8_credentials_hashed_in_key_echoed_in_response_witness :
    extOk.imageMetadata analyzeSampleF.image analyzeSampleF.registry_user
      analyzeSampleF.registry_password analyzeSampleF.verify_tls = MetaResult.ok "sha256:aaa" ∧
    analyzeSampleF.force = true ∧
    (_compute_digest_params (analyzeParameters analyzeSampleF)).length = 64 ∧
    lookupArg (analyzeParameters analyzeSampleF) "registry_user" =
      some (optVal analyzeSampleF.registry_user) ∧
    lookupArg (analyzeParameters analyzeSampleF) "registry_password" =
      some (optVal analyzeSampleF.registry_password) ∧
    lookupVal (post_analyze extOk W0 analyzeSampleF).1.1 "parameters" =
      some (Value.obj (analyzeParameters analyzeSampleF)) :=
  ⟨rfl, rfl,
   (C8_credentials_hashed_in_key_echoed_in_response extOk W0 analyzeSampleF "sha256:aaa"
     rfl rfl).1,
   (C8_credentials_hashed_in_key_echoed_in_response extOk W0 analyzeSampleF "sha256:aaa"
     rfl rfl).2.2.1,
   (C8_credentials_hashed_in_key_echoed_in_response extOk W0 analyzeSampleF "sha256:aaa"
     rfl rfl).2.2.2.1,
   (C8_credentials_hashed_in_key_echoed_in_response extOk W0 analyzeSampleF "sha256:aaa"
     rfl rfl).2.2.2.2⟩
